import Mathlib

/-!
# Verdant AI service: a shallow embedding of the request-handling routes

This file embeds the Python FastAPI routes of the Verdant repository
(`src/services/api/python/`) in Lean 4 and proves properties of the
embedded handlers.

Modelling conventions:
* JSON values (rows fetched from / written to the Supabase datastore, parsed
  model responses) are the inductive `JVal`; a row/dict is an association
  list `Row := List (String × JVal)` looked up front-to-back, matching both
  Python dicts and the repository's own `FakeSupabase` test double
  (`tests/test_ads.py`).
* The datastore is a `DB` structure with one list of rows per table plus a
  counter used to generate fresh identifiers (standing in for `uuid4()` in
  `FakeSupabase._ensure_id`).
* The upstream model backends are an oracle argument: `none` models an
  upstream failure or unparseable response text, `some v` models a call that
  returned text whose `json.loads` is `v`.  Handlers count how many model
  calls they issue.
* Python numbers are `ℚ`; `round(x, 2)` is `pyRound2` (round-half-to-even,
  Python's rounding mode).
* A handler body is a `COut`: an `Except PyErr` result together with the
  datastore state after the call (writes performed before an exception
  persist, as with a real remote datastore) and the number of model calls.
  The route-level `try/except` translation (`wrapAll` for routes whose only
  clause is `except Exception`, `wrapPass` for the two routes that re-raise
  `HTTPException` first) turns this into an HTTP-level result `HOut`.
-/

set_option maxRecDepth 20000

namespace Verdant

/-- A parsed JSON value (the result of Python `json.loads`, or a value stored
in a datastore row). -/
inductive JVal where
  | null
  | bool (b : Bool)
  | num (q : ℚ)
  | str (s : String)
  | arr (elems : List JVal)
  | obj (fields : List (String × JVal))

mutual

/-- Python `==` on JSON values (structural equality). -/
def JVal.beq : JVal → JVal → Bool
  | .null, .null => true
  | .bool a, .bool b => a == b
  | .num a, .num b => a == b
  | .str a, .str b => a == b
  | .arr a, .arr b => JVal.beqList a b
  | .obj a, .obj b => JVal.beqFields a b
  | _, _ => false

def JVal.beqList : List JVal → List JVal → Bool
  | [], [] => true
  | x :: xs, y :: ys => JVal.beq x y && JVal.beqList xs ys
  | _, _ => false

def JVal.beqFields : List (String × JVal) → List (String × JVal) → Bool
  | [], [] => true
  | (k₁, v₁) :: xs, (k₂, v₂) :: ys => k₁ == k₂ && JVal.beq v₁ v₂ && JVal.beqFields xs ys
  | _, _ => false

end

instance : BEq JVal := ⟨JVal.beq⟩

/-- A datastore row / Python dict: an association list of field names to
values, looked up front-to-back. -/
abbrev Row := List (String × JVal)

/-- Python `d[k]` as a partial lookup: the value of the first binding of `k`,
if any. -/
def rlook (r : Row) (k : String) : Option JVal :=
  (r.find? (fun p => p.1 == k)).map (fun p => p.2)

/-- Python `d.get(k)` (default `None`). -/
def pyGet (r : Row) (k : String) : JVal :=
  (rlook r k).getD .null

/-- Python `d.get(k, dflt)`. -/
def pyGetD (r : Row) (k : String) (dflt : JVal) : JVal :=
  (rlook r k).getD dflt

/-- Python `d[k] = v` on an insertion-ordered dict: replace the binding of
`k` in place if present, else append it. -/
def rset (r : Row) (k : String) (v : JVal) : Row :=
  if (rlook r k).isSome then
    r.map (fun p => if p.1 == k then (k, v) else p)
  else
    r ++ [(k, v)]

/-- Python `base.update(new)`: set each binding of `new` in `base`, in order. -/
def rupdate (base new : Row) : Row :=
  new.foldl (fun acc kv => rset acc kv.1 kv.2) base

/-- Python truthiness of a JSON value (used by checks like `if not lead:`). -/
def JVal.falsy : JVal → Bool
  | .null => true
  | .bool b => !b
  | .num q => q == 0
  | .str s => s.isEmpty
  | .arr xs => xs.isEmpty
  | .obj fs => fs.isEmpty

/-- A number-valued JSON value, as Python arithmetic sees it (`bool` is an
`int` subtype in Python; anything else raises `TypeError`). -/
def asNum : JVal → Option ℚ
  | .num q => some q
  | .bool b => some (if b then 1 else 0)
  | _ => none

/-! ## Python numeric and string helpers -/

/-- Python `round` to an integer: round half to even (banker's rounding). -/
def roundHalfEven (q : ℚ) : ℤ :=
  let f := ⌊q⌋
  let r := q - f
  if r < 1/2 then f
  else if 1/2 < r then f + 1
  else if f % 2 = 0 then f else f + 1

/-- Python `round(x, 2)`. -/
def pyRound2 (q : ℚ) : ℚ := (roundHalfEven (100 * q) : ℚ) / 100

/-- Digit grouping of Python's `,` format spec, over a reversed digit list. -/
def commaRev : List Char → List Char
  | c₁ :: c₂ :: c₃ :: c₄ :: rest => c₁ :: c₂ :: c₃ :: ',' :: commaRev (c₄ :: rest)
  | l => l

/-- A natural number with thousands separators. -/
def commaGroup (n : Nat) : String :=
  String.mk ((commaRev (toString n).data.reverse).reverse)

/-- Python `f"{x:,.0f}"` applied to an exact rational: round half to even to
an integer and insert thousands separators. -/
def fmtComma (q : ℚ) : String :=
  let n := roundHalfEven q
  if n < 0 then "-" ++ commaGroup (Int.toNat (-n)) else commaGroup n.toNat

/-- Rendering of an exact number, standing in for Python's `str()` on the
`int`/`float` stored in a JSON field. -/
def pyNumStr (q : ℚ) : String :=
  if q.den = 1 then toString q.num else toString q.num ++ "/" ++ toString q.den

mutual

/-- Python `repr` of a JSON value (used when a dict or list is interpolated
into an f-string). -/
def pyRepr : JVal → String
  | .null => "None"
  | .bool true => "True"
  | .bool false => "False"
  | .num q => pyNumStr q
  | .str s => "\x27" ++ s ++ "\x27"
  | .arr xs => "[" ++ pyReprList xs ++ "]"
  | .obj fs => "\x7b" ++ pyReprFields fs ++ "\x7d"

def pyReprList : List JVal → String
  | [] => ""
  | [x] => pyRepr x
  | x :: xs => pyRepr x ++ ", " ++ pyReprList xs

def pyReprFields : List (String × JVal) → String
  | [] => ""
  | [(k, v)] => "\x27" ++ k ++ "\x27: " ++ pyRepr v
  | (k, v) :: fs => "\x27" ++ k ++ "\x27: " ++ pyRepr v ++ ", " ++ pyReprFields fs

end

/-- Python `str()` of a JSON value, as used by f-string interpolation. -/
def pyStr : JVal → String
  | .str s => s
  | v => pyRepr v

/-- f-string interpolation of an `Optional[str]` field. -/
def pyOptStr : Option String → String
  | none => "None"
  | some s => s

/-- Python `", ".join(xs)` for a JSON value that must be a list of strings
(anything else raises `TypeError`). -/
def joinStrs (v : JVal) : Option String :=
  match v with
  | .arr xs => (xs.mapM (fun x => match x with | JVal.str s => some s | _ => none)).map
      (String.intercalate ", ")
  | _ => none

/-- Python `s.strip()`. -/
def pyStrip (s : String) : String :=
  String.mk (((s.data.dropWhile Char.isWhitespace).reverse.dropWhile Char.isWhitespace).reverse)

/-- Python `s[:n]`. -/
def pyTake (s : String) (n : Nat) : String :=
  String.mk (s.data.take n)

/-- One step of Python `s.title()`: the flag records whether the previous
character was alphabetic. -/
def pyTitleGo : Bool → List Char → List Char
  | _, [] => []
  | prevAlpha, c :: rest =>
    (if c.isAlpha then (if prevAlpha then c.toLower else c.toUpper) else c)
      :: pyTitleGo c.isAlpha rest

/-- Python `s.title()`. -/
def pyTitle (s : String) : String := String.mk (pyTitleGo false s.data)

/-! ## Errors, handler outcomes and the route-level `try/except` policies -/

/-- An exception raised inside a route handler: either a deliberately raised
`HTTPException` or any other Python exception, carrying its `str()`. -/
inductive PyErr where
  | http (code : Nat) (detail : String)
  | exn (msg : String)

/-- Python `str(e)`: Starlette renders an `HTTPException` as
`"{status_code}: {detail}"`. -/
def pyErrStr : PyErr → String
  | .http code detail => toString code ++ ": " ++ detail
  | .exn msg => msg

/-- `str(KeyError(k))` is the repr of the missing key. -/
def keyErr (k : String) : PyErr := .exn ("\x27" ++ k ++ "\x27")

/-- The datastore: one list of rows per table touched by the embedded routes,
plus a counter generating fresh identifiers (the counterpart of `uuid4()` in
`FakeSupabase._ensure_id`). -/
structure DB where
  leads : List Row := []
  ad_campaigns : List Row := []
  neighborhoods : List Row := []
  ad_creatives : List Row := []
  customers : List Row := []
  customer_embeddings : List Row := []
  prospects : List Row := []
  garden_plans : List Row := []
  properties : List Row := []
  weather_data : List Row := []
  nextId : Nat := 0

/-- Total number of stored rows, over all tables. -/
def totalRows (db : DB) : Nat :=
  db.leads.length + db.ad_campaigns.length + db.neighborhoods.length +
    db.ad_creatives.length + db.customers.length + db.customer_embeddings.length +
    db.prospects.length + db.garden_plans.length + db.properties.length +
    db.weather_data.length

/-- The body of a route handler: its `Except`-style result, the datastore
after the call (writes made before an exception persist), and how many
upstream model calls were issued. -/
structure COut (α : Type) where
  res : Except PyErr α
  db : DB
  calls : Nat

/-- An HTTP-level outcome: status/detail on failure. -/
structure HOut (α : Type) where
  res : Except (Nat × String) α
  db : DB
  calls : Nat

/-- The `try: ... except Exception as e: raise HTTPException(500, pfx + str(e))`
pattern (used by `ads.py`, `garden.py`, `properties.py`, `maintenance.py`,
`analytics.py`, `content.py`): every exception — including an
`HTTPException(404)` raised inside the `try` — is re-wrapped as a 500. -/
def wrapAll {α : Type} (pfx : String) (o : COut α) : HOut α :=
  ⟨match o.res with
    | .ok a => .ok a
    | .error e => .error (500, pfx ++ pyErrStr e), o.db, o.calls⟩

/-- The `except HTTPException: raise` / `except Exception as e: ...` pattern
(used by `score_lead` and `generate_customer_embedding`): `HTTPException`s
keep their status, other exceptions become a 500. -/
def wrapPass {α : Type} (pfx : String) (o : COut α) : HOut α :=
  ⟨match o.res with
    | .ok a => .ok a
    | .error (.http code detail) => .error (code, detail)
    | .error (.exn msg) => .error (500, pfx ++ msg), o.db, o.calls⟩

/-! ## Datastore operations (semantics from `FakeSupabase` in
`tests/test_ads.py`) -/

/-- `.eq(field, value)` filtering. -/
def eqFilter (rows : List Row) (k : String) (v : JVal) : List Row :=
  rows.filter (fun r => pyGet r k == v)

/-- `.eq(field, value).single()`: the first matching row, if any. -/
def singleByVal (rows : List Row) (k : String) (v : JVal) : Option Row :=
  (eqFilter rows k v).head?

/-- `FakeSupabase._ensure_id`: assign a fresh `id` when the payload has no
truthy `id`. -/
def ensureId (tbl : String) (n : Nat) (r : Row) : Row :=
  if (pyGet r "id").falsy then rset r "id" (.str (tbl ++ "-" ++ toString n)) else r

/-- `FakeSupabase._handle_insert` for a single payload: ensure an id and
append; returns the stored row and the new table contents. -/
def insertRow (tbl : String) (n : Nat) (rows : List Row) (r : Row) : Row × List Row :=
  let stored := ensureId tbl n r
  (stored, rows ++ [stored])

/-- The in-place merge step of `FakeSupabase._handle_upsert`: find the first
row matching `pred`, `update` it with the payload, and return it. -/
def upsertRows (pred : Row → Bool) (payload : Row) : List Row → Option Row × List Row
  | [] => (none, [])
  | r :: rs =>
    if pred r then (some (rupdate r payload), rupdate r payload :: rs)
    else
      let (o, rs') := upsertRows pred payload rs
      (o, r :: rs')

/-- Python `s.split(",")`. -/
def splitCommaAux : List Char → List Char → List String
  | [], cur => [String.mk cur.reverse]
  | c :: rest, cur =>
    if c = ',' then String.mk cur.reverse :: splitCommaAux rest []
    else splitCommaAux rest (c :: cur)

/-- Python `s.split(",")`. -/
def splitComma (s : String) : List String := splitCommaAux s.data []

/-- `FakeSupabase._handle_upsert`: match on the comma-separated conflict
fields if given (`[field.strip() for field in on_conflict.split(",")]`,
comparing with Python `==`, absent fields reading as `None`); merge into
the first match, else insert. Returns the stored row, the new table
contents and the next fresh-id counter. -/
def handleUpsert (tbl : String) (n : Nat) (rows : List Row) (payload : Row)
    (onConflict : Option String) : Row × List Row × Nat :=
  let keyFields : List String :=
    match onConflict with
    | none => []
    | some s => (splitComma s).map pyStrip
  let pred : Row → Bool := fun stored =>
    !keyFields.isEmpty && keyFields.all (fun f => pyGet stored f == pyGet payload f)
  match upsertRows pred payload rows with
  | (some merged, rows') => (merged, rows', n)
  | (none, _) =>
    let stored := ensureId tbl n payload
    (stored, rows ++ [stored], n + 1)

mutual

/-- Python `json.dumps` (default separators; string escaping not modelled). -/
def jsonDumps : JVal → String
  | .null => "null"
  | .bool true => "true"
  | .bool false => "false"
  | .num q => pyNumStr q
  | .str s => "\"" ++ s ++ "\""
  | .arr xs => "[" ++ jsonDumpsList xs ++ "]"
  | .obj fs => "\x7b" ++ jsonDumpsFields fs ++ "\x7d"

def jsonDumpsList : List JVal → String
  | [] => ""
  | [x] => jsonDumps x
  | x :: xs => jsonDumps x ++ ", " ++ jsonDumpsList xs

def jsonDumpsFields : List (String × JVal) → String
  | [] => ""
  | [(k, v)] => "\"" ++ k ++ "\": " ++ jsonDumps v
  | (k, v) :: fs => "\"" ++ k ++ "\": " ++ jsonDumps v ++ ", " ++ jsonDumpsFields fs

end

/-! ## Lead scoring (`routes/leads.py`) -/

/-- The scoring prompt of `score_lead` (`leads.py` lines 46–70).  Fails
(`TypeError`) only if `services_interested` is present but not a list of
strings, mirroring `', '.join(...)`. -/
def renderScorePrompt (lead : Row) : Option String :=
  (joinStrs (pyGetD lead "services_interested" (.arr []))).map (fun services =>
    "\n        Analyze this landscaping lead and provide a quality score from 0-100.\n\n        Lead Information:\n        - Name: "
    ++ pyStr (pyGetD lead "first_name" (.str "")) ++ " "
    ++ pyStr (pyGetD lead "last_name" (.str ""))
    ++ "\n        - Property Size: " ++ pyStr (pyGetD lead "property_size_sqft" (.str "Unknown"))
    ++ " sq ft\n        - Services Interested: " ++ services
    ++ "\n        - Source: " ++ pyStr (pyGetD lead "source" (.str "Unknown"))
    ++ "\n        - Location: " ++ jsonDumps (pyGetD lead "property_address" (.obj []))
    ++ "\n        - Contact Attempts: " ++ pyStr (pyGetD lead "contact_attempts" (.num 0))
    ++ "\n\n        Provide your response in JSON format:\n        \x7b\n            \"score\": <number 0-100>,\n            \"estimated_monthly_value\": <number>,\n            \"factors\": \x7b\n                \"property_size\": <number 0-25>,\n                \"service_interest\": <number 0-25>,\n                \"source_quality\": <number 0-25>,\n                \"engagement\": <number 0-25>\n            \x7d,\n            \"explanation\": \"<brief explanation>\",\n            \"recommended_actions\": [\"<action 1>\", \"<action 2>\"]\n        \x7d\n        ")

/-- The top-level keys of the JSON shape declared in the scoring prompt. -/
def scoreSchemaKeys : List String :=
  ["score", "estimated_monthly_value", "factors", "explanation", "recommended_actions"]

/-- The response body of `score_lead`. -/
structure ScoreBody where
  lead_id : String
  score : JVal
  estimated_monthly_value : JVal
  factors : JVal
  explanation : JVal
  recommended_actions : JVal

/-- How `score_lead` reads the parsed model response: each key of the
declared shape is read with `result.get(key, default)`. -/
def mkScoreBody (leadId : String) (result : Row) : ScoreBody :=
  ⟨leadId,
    pyGetD result "score" (.num 50),
    pyGetD result "estimated_monthly_value" (.num 0),
    pyGetD result "factors" (.obj []),
    pyGetD result "explanation" (.str ""),
    pyGetD result "recommended_actions" (.arr [])⟩

/-- The body of `score_lead` inside its `try`: fetch the lead, build the
prompt, call GPT-4, read the parsed response.  Returns the result and the
number of model calls; the handler performs no datastore write. -/
def scoreLeadCore (db : DB) (leadId : String) (oracle : Option Row) :
    Except PyErr ScoreBody × Nat :=
  match singleByVal db.leads "id" (.str leadId) with
  | none => (.error (.http 404 "Lead not found"), 0)
  | some lead =>
    if lead.isEmpty then (.error (.http 404 "Lead not found"), 0)
    else
      match renderScorePrompt lead with
      | none => (.error (.exn "TypeError"), 0)
      | some _context =>
        match oracle with
        | none => (.error (.exn "upstream call failed"), 1)
        | some result => (.ok (mkScoreBody leadId result), 1)

/-- `POST /score` (`score_lead`): core body under the
`except HTTPException: raise / except Exception` policy. -/
def scoreLead (db : DB) (leadId : String) (oracle : Option Row) : HOut ScoreBody :=
  let (r, calls) := scoreLeadCore db leadId oracle
  wrapPass "Lead scoring failed: " ⟨r, db, calls⟩

/-- The per-lead datastore update of `batch_score_leads`
(`.update({'score': ..., 'score_factors': ..., 'estimated_monthly_value': ...})`). -/
def updScore (r : Row) (body : ScoreBody) : Row :=
  rset (rset (rset r "score" body.score) "score_factors" body.factors)
    "estimated_monthly_value" body.estimated_monthly_value

/-- The batch loop of `batch_score_leads`: score each fetched lead via
`score_lead`, update it on success, and skip (`continue`) any item whose
scoring raises. State: datastore, scored count, collected results, model
calls. -/
def batchGo (oracle : String → Option Row) :
    List Row → DB → Nat → List ScoreBody → Nat → DB × Nat × List ScoreBody × Nat
  | [], db, n, acc, calls => (db, n, acc, calls)
  | lead :: rest, db, n, acc, calls =>
    match rlook lead "id" with
    | none => batchGo oracle rest db n acc calls
    | some idv =>
      match idv with
      | .str s =>
        match scoreLeadCore db s (oracle s) with
        | (.error _, c) => batchGo oracle rest db n acc (calls + c)
        | (.ok body, c) =>
          let db' := { db with
            leads := db.leads.map (fun r =>
              if pyGet r "id" == JVal.str s then updScore r body else r) }
          batchGo oracle rest db' (n + 1) (acc ++ [body]) (calls + c)
      | _ => batchGo oracle rest db n acc calls

/-- The response body of `batch_score_leads`. -/
structure BatchBody where
  message : String
  scored_count : Nat
  results : List ScoreBody

/-- `POST /batch-score` (`batch_score_leads`): fetch the leads whose ids are
in the request (`in_` filter), then run the batch loop.  The endpoint
answers 200 with a partial-success body; a failed item is skipped, never
escalated. -/
def batchScoreLeads (db : DB) (leadIds : List String) (oracle : String → Option Row) :
    HOut BatchBody :=
  let snapshot := db.leads.filter (fun r => leadIds.any (fun s => pyGet r "id" == JVal.str s))
  let (db', n, results, calls) := batchGo oracle snapshot db 0 [] 0
  ⟨.ok ⟨"Scored " ++ toString n ++ " of " ++ toString leadIds.length ++ " leads", n, results⟩,
    db', calls⟩

/-! ## Lawn-area estimation (`routes/properties.py`) -/

/-- The response body of `estimate_lawn_area`. -/
structure LawnBody where
  property_id : String
  lot_size_sqft : JVal
  building_area_sqft : JVal
  estimated_lawn_area_sqft : ℚ
  note : String

/-- The body of `estimate_lawn_area` inside its `try`: fetch the property,
default missing areas to `0`, and return
`round((lot_size - building_area) * 0.5, 2)`.  No model call, no write. -/
def estimateLawnAreaCore (db : DB) (propertyId : String) : Except PyErr LawnBody :=
  match singleByVal db.properties "id" (.str propertyId) with
  | none => .error (.http 404 "Property not found")
  | some p =>
    if p.isEmpty then .error (.http 404 "Property not found")
    else
      let lotSize := pyGetD p "lot_size_sqft" (.num 0)
      let buildingArea := pyGetD p "building_area_sqft" (.num 0)
      match asNum lotSize, asNum buildingArea with
      | some l, some b =>
        let nonBuildingArea := l - b
        let estimatedLawn := nonBuildingArea * (1/2)
        .ok ⟨propertyId, lotSize, buildingArea, pyRound2 estimatedLawn,
          "This is a basic estimation. For accurate measurements, consider aerial image analysis."⟩
      | _, _ => .error (.exn "TypeError")

/-- `POST /estimate-lawn-area`: the route has only a bare `except Exception`
clause, so even its own 404 is re-wrapped by `wrapAll`. -/
def estimateLawnArea (db : DB) (propertyId : String) : HOut LawnBody :=
  wrapAll "Lawn area estimation failed: " ⟨estimateLawnAreaCore db propertyId, db, 0⟩

/-! ## Rainfall summary (`routes/maintenance.py`) -/

/-- The response body of `get_rainfall_summary`. -/
structure RainBody where
  zip_code : String
  days : ℤ
  total_rainfall_inches : ℚ
  daily_data : List Row
  watering_needed : Bool

/-- `sum(float(day.get('rainfall_inches', 0)) for day in data)`: missing
values read as `0`; a non-numeric value raises. -/
def sumRainfall : List Row → Option ℚ
  | [] => some 0
  | r :: rs => do
    let x ← asNum (pyGetD r "rainfall_inches" (.num 0))
    let s ← sumRainfall rs
    pure (x + s)

/-- The `.gte('date', start_date)` filter, with dates modelled as day
numbers. -/
def dateGe (r : Row) (start : ℤ) : Bool :=
  match asNum (pyGet r "date") with
  | some d => decide ((start : ℚ) ≤ d)
  | none => false

/-- `GET /weather/rainfall-summary` (`get_rainfall_summary`): filter weather
rows by zip code and date window (`today - days`), sum the rainfall, and
report `watering_needed = total < 1.0`.  (`FakeSupabase`'s `order` is a
no-op, so row order is storage order.)  No model call, no write. -/
def getRainfallSummary (db : DB) (zip : String) (days : ℤ) (today : ℤ) : HOut RainBody :=
  let start := today - days
  let data := db.weather_data.filter (fun r =>
    (pyGet r "zip_code" == JVal.str zip) && dateGe r start)
  match sumRainfall data with
  | some totalRainfall =>
    ⟨.ok ⟨zip, days, pyRound2 totalRainfall, data, decide (totalRainfall < 1)⟩, db, 0⟩
  | none => wrapAll "" ⟨.error (.exn "TypeError"), db, 0⟩

/-! ## Customer embeddings (`routes/ai.py`) -/

/-- `settings.embedding_model` (`core/config.py`). -/
def settingsEmbeddingModel : String := "text-embedding-3-small"

/-- The profile text of `generate_customer_embedding` (`ai.py` lines 73–78).
Fails (`TypeError`/`AttributeError`) if `billing_address` is present but not
a dict, or `tags` is not a list of strings. -/
def renderEmbeddingText (customer : Row) : Option String :=
  match pyGetD customer "billing_address" (.obj []) with
  | .obj billing =>
    (joinStrs (pyGetD customer "tags" (.arr []))).map (fun tags =>
      "\n        Customer: " ++ pyStr (pyGet customer "first_name") ++ " "
      ++ pyStr (pyGet customer "last_name")
      ++ "\n        Location: " ++ pyStr (pyGetD billing "city" (.str ""))
      ++ "\n        Tags: " ++ tags
      ++ "\n        Notes: " ++ pyStr (pyGetD customer "notes" (.str ""))
      ++ "\n        ")
  | _ => none

/-- The response body of `generate_customer_embedding`. -/
structure EmbBody where
  message : String
  customer_id : String

/-- The body of `generate_customer_embedding` inside its `try`: fetch the
customer, build the profile text, call the embedding backend, then
`upsert` into `customer_embeddings` — with **no** `on_conflict` argument. -/
def customerEmbeddingCore (db : DB) (customerId : String) (oracle : Option (List ℚ)) :
    COut EmbBody :=
  match singleByVal db.customers "id" (.str customerId) with
  | none => ⟨.error (.http 404 "Customer not found"), db, 0⟩
  | some customer =>
    if customer.isEmpty then ⟨.error (.http 404 "Customer not found"), db, 0⟩
    else
      match renderEmbeddingText customer with
      | none => ⟨.error (.exn "TypeError"), db, 0⟩
      | some text =>
        match oracle with
        | none => ⟨.error (.exn "upstream call failed"), db, 1⟩
        | some embedding =>
          let payload : Row :=
            [("customer_id", .str customerId),
             ("embedding", .arr (embedding.map JVal.num)),
             ("embedding_text", .str (pyStrip text)),
             ("model", .str settingsEmbeddingModel)]
          let (_, rows', n') :=
            handleUpsert "customer_embeddings" db.nextId db.customer_embeddings payload none
          ⟨.ok ⟨"Customer embedding generated successfully", customerId⟩,
            { db with customer_embeddings := rows', nextId := n' }, 1⟩

/-- `POST /embeddings/customer`: core body under the
`except HTTPException: raise / except Exception` policy. -/
def customerEmbedding (db : DB) (customerId : String) (oracle : Option (List ℚ)) :
    HOut EmbBody :=
  wrapPass "Failed to generate customer embedding: " (customerEmbeddingCore db customerId oracle)

/-! ## Ad generation (`routes/ads.py`) -/

/-- The request model `AdGenerationRequest` (optional fields carry their
pydantic defaults). -/
structure AdReq where
  campaign_id : String
  neighborhood_ids : List String
  ad_type : String
  platforms : List String
  tone : String := "friendly"
  promotion : Option Row := none
  use_model : String := "gpt-4"

/-- `{f"Promotion: {request.promotion}" if request.promotion else ''}` — an
absent or empty promotion dict is falsy. -/
def adPromoStr : Option Row → String
  | none => ""
  | some p => if p.isEmpty then "" else "Promotion: " ++ pyRepr (.obj p)

/-- The fixed part of the ad prompt after the promotion slot
(`ads.py` lines 83–118). -/
def adTail : String :=
  "\n\n            IMPORTANT - Create ad copy that:\n"
  ++ "            1. STARTS with an engaging LOCAL FACTOID about growing in this specific neighborhood\n"
  ++ "               Examples of great factoids:\n"
  ++ "               - \"Oak Ridge gardeners: Did you know our clay-loam soil retains 40% more moisture than sandy soil? Perfect for tomatoes!\"\n"
  ++ "               - \"Maple Heights: Your Zone 5b allows 180+ growing days - longer than 60% of Illinois!\"\n"
  ++ "               - \"River Bend\x27s sandy soil drains fast - that\x27s why your garden needs watering 2x more than Oak Ridge neighbors\"\n"
  ++ "               - \"Your Kentucky Bluegrass loves our Zone 5b climate - but it needs the RIGHT fertilization schedule\"\n"
  ++ "\n"
  ++ "            2. The factoid should be SPECIFIC to this neighborhood\x27s soil type, zone, or grass type\n"
  ++ "            3. Make it surprising, useful, or create \"aha!\" moment\n"
  ++ "            4. Then transition to your lawn care service offer\n"
  ++ "            5. Mentions the neighborhood by name for local appeal\n"
  ++ "            6. Includes a strong call-to-action\n"
  ++ "\n"
  ++ "            For each platform, provide:\n"
  ++ "            - Local Factoid: A surprising, useful fact about growing/gardening in THIS specific neighborhood\n"
  ++ "            - Headline (max 40 characters for Instagram, 150 for Facebook)\n"
  ++ "            - Body text (starts with the factoid, then transitions to service offer)\n"
  ++ "            - Call-to-action (Learn More, Get Quote, Sign Up, etc.)\n"
  ++ "            - 3-5 relevant hashtags (for Instagram/Twitter)\n"
  ++ "\n"
  ++ "            Provide response in JSON format:\n"
  ++ "            \x7b\n"
  ++ "                \"variants\": [\n"
  ++ "                    \x7b\n"
  ++ "                        \"platform\": \"facebook\",\n"
  ++ "                        \"local_factoid\": \"<surprising local gardening fact specific to this neighborhood>\",\n"
  ++ "                        \"headline\": \"<headline>\",\n"
  ++ "                        \"body\": \"<body text starting with factoid>\",\n"
  ++ "                        \"cta\": \"<call to action>\",\n"
  ++ "                        \"hashtags\": [\"#tag1\", \"#tag2\"]\n"
  ++ "                    \x7d\n"
  ++ "                ]\n"
  ++ "            \x7d\n"
  ++ "            "

/-- The per-neighborhood prompt of `generate_neighborhood_ads` (`ads.py`
lines 63–118).  Fails (`TypeError`/`ValueError`) only if
`common_grass_types` is present but not a list of strings, or
`avg_home_value` is present but not a number (the `:,.0f` format). -/
def renderAdPrompt (req : AdReq) (nb : Row) : Option String :=
  (joinStrs (pyGetD nb "common_grass_types" (.arr []))).bind (fun grass =>
  (asNum (pyGetD nb "avg_home_value" (.num 0))).map (fun homeValue =>
    "\n            Generate a hyper-local " ++ req.ad_type
    ++ " ad for a lawn care and landscaping business.\n\n            Target Neighborhood: "
    ++ pyStr (pyGetD nb "name" (.str "Unknown"))
    ++ "\n            City: " ++ pyStr (pyGetD nb "city" (.str ""))
    ++ "\n            State: " ++ pyStr (pyGetD nb "state" (.str ""))
    ++ "\n\n            Neighborhood Characteristics:\n            - Soil Type: "
    ++ pyStr (pyGetD nb "soil_type" (.str "mixed"))
    ++ "\n            - USDA Hardiness Zone: "
    ++ pyStr (pyGetD nb "usda_hardiness_zone" (.str "5b"))
    ++ "\n            - Common Grass Types: " ++ grass
    ++ "\n            - Average Home Value: $" ++ fmtComma homeValue
    ++ "\n            - Household Count: " ++ pyStr (pyGetD nb "household_count" (.str "N/A"))
    ++ "\n\n            Ad Requirements:\n            - Tone: " ++ req.tone
    ++ "\n            - Platform(s): " ++ String.intercalate ", " req.platforms
    ++ "\n            - Ad Type: " ++ req.ad_type
    ++ "\n\n            " ++ adPromoStr req.promotion
    ++ adTail))

/-- `ad_variants.get('variants', [])` followed by iteration: a non-dict
response or a non-list `variants` value raises (empty dicts iterate to
nothing). -/
def getVariants : JVal → Option (List JVal)
  | .obj fs =>
    match pyGetD fs "variants" (.arr []) with
    | .arr xs => some xs
    | .obj [] => some []
    | _ => none
  | _ => none

/-- The `creative_data` dict stored for one generated variant (`ads.py`
lines 150–163). -/
def creativeData (req : AdReq) (nid : String) (nb : Row) (context : String)
    (platform : String) (headline bodyText cta : JVal) (variantFields : Row) : Row :=
  [("campaign_id", .str req.campaign_id),
   ("name", .str (pyStr (pyGet nb "name") ++ " - " ++ pyTitle platform)),
   ("ad_type", .str req.ad_type),
   ("headline", headline),
   ("body_text", bodyText),
   ("call_to_action", cta),
   ("neighborhood_id", .str nid),
   ("hyper_local_content", .obj variantFields),
   ("generated_by", .str "ai"),
   ("ai_model", .str req.use_model),
   ("generation_prompt", .str (pyTake context 500)),
   ("status", .str "draft")]

/-- The inner `for variant in ad_variants.get('variants', [])` loop: build
`creative_data` (reading the required variant keys, raising `KeyError` /
`AttributeError` / `TypeError` as Python would) and insert it.  Rows
inserted before a failing variant persist. -/
def adsVariantLoop (req : AdReq) (nid : String) (nb : Row) (context : String) :
    List JVal → DB → List Row → Except PyErr (List Row) × DB
  | [], db, acc => (.ok acc, db)
  | v :: vs, db, acc =>
    match v with
    | .obj fields =>
      match rlook fields "platform" with
      | none => (.error (keyErr "platform"), db)
      | some pv =>
        match pv with
        | .str platform =>
          match rlook fields "headline" with
          | none => (.error (keyErr "headline"), db)
          | some headline =>
            match rlook fields "body" with
            | none => (.error (keyErr "body"), db)
            | some bodyText =>
              match rlook fields "cta" with
              | none => (.error (keyErr "cta"), db)
              | some cta =>
                let (row, rows') := insertRow "ad_creatives" db.nextId db.ad_creatives
                  (creativeData req nid nb context platform headline bodyText cta fields)
                adsVariantLoop req nid nb context vs
                  { db with ad_creatives := rows', nextId := db.nextId + 1 } (acc ++ [row])
        | _ => (.error (.exn "AttributeError"), db)
    | _ => (.error (.exn "TypeError"), db)

/-- The outer `for neighborhood_id in request.neighborhood_ids` loop: a
missing (or empty) neighborhood is skipped with `continue`; otherwise
render the prompt, call the chosen model, parse, and store each variant. -/
def adsNbLoop (req : AdReq) (oracle : String → Option JVal) :
    List String → DB → Nat → List Row → COut (List Row)
  | [], db, calls, acc => ⟨.ok acc, db, calls⟩
  | nid :: rest, db, calls, acc =>
    match singleByVal db.neighborhoods "id" (.str nid) with
    | none => adsNbLoop req oracle rest db calls acc
    | some nb =>
      if nb.isEmpty then adsNbLoop req oracle rest db calls acc
      else
        match renderAdPrompt req nb with
        | none => ⟨.error (.exn "TypeError"), db, calls⟩
        | some context =>
          match oracle nid with
          | none => ⟨.error (.exn "upstream call failed"), db, calls + 1⟩
          | some resp =>
            match getVariants resp with
            | none => ⟨.error (.exn "TypeError"), db, calls + 1⟩
            | some variants =>
              match adsVariantLoop req nid nb context variants db acc with
              | (.ok acc', db') => adsNbLoop req oracle rest db' (calls + 1) acc'
              | (.error e, db') => ⟨.error e, db', calls + 1⟩

/-- The response body of `generate_neighborhood_ads`. -/
structure AdsBody where
  message : String
  ads : List Row
  model_used : String

/-- The body of `generate_neighborhood_ads` inside its `try`: fetch the
campaign (404 when absent), then run the per-neighborhood loop. -/
def adsCore (db : DB) (req : AdReq) (oracle : String → Option JVal) : COut AdsBody :=
  match singleByVal db.ad_campaigns "id" (.str req.campaign_id) with
  | none => ⟨.error (.http 404 "Campaign not found"), db, 0⟩
  | some campaign =>
    if campaign.isEmpty then ⟨.error (.http 404 "Campaign not found"), db, 0⟩
    else
      match adsNbLoop req oracle req.neighborhood_ids db 0 [] with
      | ⟨.ok ads, db', calls⟩ =>
        ⟨.ok ⟨"Generated " ++ toString ads.length ++ " ad variants across "
            ++ toString req.neighborhood_ids.length ++ " neighborhoods", ads, req.use_model⟩,
          db', calls⟩
      | ⟨.error e, db', calls⟩ => ⟨.error e, db', calls⟩

/-- `POST /generate` (`generate_neighborhood_ads`): the route has only a
bare `except Exception` clause, so even its own 404 is re-wrapped by
`wrapAll`. -/
def generateNeighborhoodAds (db : DB) (req : AdReq) (oracle : String → Option JVal) :
    HOut AdsBody :=
  wrapAll "Ad generation failed: " (adsCore db req oracle)

/-! ## Garden planning (`routes/garden.py`) -/

/-- The request model `PersonalizedGardenRequest` (optional fields carry
their pydantic defaults). -/
structure GardenReq where
  address : String
  primary_goal : List String
  time_commitment : String
  experience_level : String
  garden_size : String
  harvest_preferences : List String
  favorite_recipes : Option String := none
  email : String
  phone : Option String := none

/-- An `Optional[str]` request field as a stored JSON value. -/
def optJ : Option String → JVal
  | none => .null
  | some s => .str s

/-- Initial-segment test on character lists. -/
def chPre : List Char → List Char → Bool
  | [], _ => true
  | _ :: _, [] => false
  | a :: as, b :: bs => a == b && chPre as bs

/-- Substring occurrence test on character lists. -/
def chSub : List Char → List Char → Bool
  | needle, [] => needle.isEmpty
  | needle, c :: rest => chPre needle (c :: rest) || chSub needle rest

/-- Lower-casing, character by character. -/
def strLower (s : String) : String := String.mk (s.data.map Char.toLower)

/-- Case-insensitive substring test (`ilike '%needle%'`). -/
def containsCI (hay needle : String) : Bool :=
  chSub (strLower needle).data (strLower hay).data

/-- The `.ilike('street_address', f'%{request.address}%')` prospect filter. -/
def ilikePred (address : String) (r : Row) : Bool :=
  match pyGet r "street_address" with
  | .str s => containsCI s address
  | _ => false

/-- The USDA-zone line of the garden prompt: an absent or falsy
neighborhood uses the literal estimate; otherwise
`neighborhood.get('usda_hardiness_zone', '5b')`. -/
def gardenZoneLine : Option Row → String
  | none => "- USDA Zone: 5b (estimate)"
  | some nb =>
    if nb.isEmpty then "- USDA Zone: 5b (estimate)"
    else "- USDA Zone: " ++ pyStr (pyGetD nb "usda_hardiness_zone" (.str "5b"))

/-- The soil-type line of the garden prompt, defaulting to `loam`. -/
def gardenSoilLine : Option Row → String
  | none => "- Soil Type: loam (estimate)"
  | some nb =>
    if nb.isEmpty then "- Soil Type: loam (estimate)"
    else "- Soil Type: " ++ pyStr (pyGetD nb "soil_type" (.str "loam"))

/-- `{f"- Favorite Recipes: {request.favorite_recipes}" if
request.favorite_recipes else ""}` — `None` and `""` are falsy. -/
def gardenRecipesLine : Option String → String
  | none => ""
  | some r => if r.isEmpty then "" else "- Favorite Recipes: " ++ r

/-- The fixed tail of the garden prompt (`garden.py` lines 79–138). -/
def gardenTail : String :=
  "\nTASK:\n"
  ++ "Create a customized garden plan that:\n"
  ++ "1. Matches their time commitment (if low, recommend easy, low-maintenance plants)\n"
  ++ "2. Matches experience level (beginner = easy, forgiving varieties)\n"
  ++ "3. Provides ingredients for their favorite recipes\n"
  ++ "4. Fits in their garden size space constraints\n"
  ++ "5. Maximizes their stated goals\n"
  ++ "\n"
  ++ "For each recommended plant, provide:\n"
  ++ "- Plant name and specific variety (e.g., \"Tomato - Cherokee Purple\")\n"
  ++ "- Quantity to plant\n"
  ++ "- Why this fits their goals (one sentence)\n"
  ++ "- Maintenance level (low/medium/high)\n"
  ++ "- Which of their recipes/preferences it supports\n"
  ++ "- Expected yield estimate\n"
  ++ "- Key maintenance tasks\n"
  ++ "\n"
  ++ "Also provide:\n"
  ++ "- Total weekly maintenance time estimate\n"
  ++ "- Simple garden layout suggestion\n"
  ++ "- Succession planting tips if applicable\n"
  ++ "- Beginner-friendly tips for their experience level\n"
  ++ "- Recipe harvest calendar (when they can make each dish)\n"
  ++ "\n"
  ++ "Return ONLY valid JSON in this exact structure:\n"
  ++ "\x7b\n"
  ++ "    \"garden_summary\": \x7b\n"
  ++ "        \"total_plants\": 0,\n"
  ++ "        \"garden_size_recommended\": \"\",\n"
  ++ "        \"estimated_weekly_maintenance\": \"\",\n"
  ++ "        \"difficulty\": \"\",\n"
  ++ "        \"first_harvest\": \"\",\n"
  ++ "        \"peak_harvest\": \"\",\n"
  ++ "        \"estimated_weekly_yield\": \"\"\n"
  ++ "    \x7d,\n"
  ++ "    \"plant_recommendations\": [\n"
  ++ "        \x7b\n"
  ++ "            \"plant\": \"\",\n"
  ++ "            \"quantity\": 0,\n"
  ++ "            \"why\": \"\",\n"
  ++ "            \"maintenance\": \"\",\n"
  ++ "            \"recipes\": [],\n"
  ++ "            \"yield\": \"\",\n"
  ++ "            \"maintenance_tasks\": []\n"
  ++ "        \x7d\n"
  ++ "    ],\n"
  ++ "    \"garden_layout\": \x7b\n"
  ++ "        \"description\": \"\",\n"
  ++ "        \"tips\": []\n"
  ++ "    \x7d,\n"
  ++ "    \"shopping_list\": [\n"
  ++ "        \x7b\n"
  ++ "            \"item\": \"\",\n"
  ++ "            \"quantity\": \"\",\n"
  ++ "            \"estimated_price\": \"\"\n"
  ++ "        \x7d\n"
  ++ "    ],\n"
  ++ "    \"beginner_tips\": [],\n"
  ++ "    \"recipe_harvest_calendar\": \x7b\x7d\n"
  ++ "\x7d\n"

/-- The garden prompt of `generate_personalized_plan` (`garden.py` lines
61–139).  Total: every interpolated value is a request string or a
defaulted neighborhood field. -/
def renderGardenContext (req : GardenReq) (nb : Option Row) : String :=
  "\nYou are an expert gardener helping a homeowner plan their vegetable garden.\n\nLOCATION:\n- Address: "
  ++ req.address ++ "\n"
  ++ gardenZoneLine nb ++ "\n"
  ++ gardenSoilLine nb ++ "\n"
  ++ "- Approximate Last Frost: April 15 (adjust based on zone)\n"
  ++ "- Approximate First Frost: October 15 (adjust based on zone)\n"
  ++ "\nUSER PROFILE:\n- Primary Goals: " ++ String.intercalate ", " req.primary_goal
  ++ "\n- Time Available: " ++ req.time_commitment ++ " "
  ++ "\n- Experience Level: " ++ req.experience_level
  ++ "\n- Garden Size: " ++ req.garden_size
  ++ "\n- Harvest Preferences: " ++ String.intercalate ", " req.harvest_preferences ++ "\n"
  ++ gardenRecipesLine req.favorite_recipes ++ "\n"
  ++ gardenTail

/-- `'usda_zone': neighborhood.get('usda_hardiness_zone') if neighborhood
else '5b'` (`garden.py` line 159 — note: no default inside `get`). -/
def gardenUsdaZone : Option Row → JVal
  | none => .str "5b"
  | some nb => if nb.isEmpty then .str "5b" else pyGet nb "usda_hardiness_zone"

/-- The response body of `generate_personalized_plan`. -/
structure GardenBody where
  success : Bool
  message : String
  garden_plan_id : JVal
  plan : JVal

/-- The body of `generate_personalized_plan` inside its `try`: find or
create the prospect, optionally fetch its neighborhood, render the prompt,
call GPT-4, then insert a garden plan and a lead. -/
def gardenCore (db : DB) (req : GardenReq) (oracle : Option JVal) : COut GardenBody :=
  let found := (db.prospects.filter (ilikePred req.address)).head?
  let (prospect, db₁) :=
    match found with
    | some p => (p, db)
    | none =>
      let prospectData : Row :=
        [("street_address", .str req.address),
         ("contact_status", .str "engaged"),
         ("email", .str req.email),
         ("phone", optJ req.phone),
         ("source", .str "garden_planner")]
      let (p, rows') := insertRow "prospects" db.nextId db.prospects prospectData
      (p, { db with prospects := rows', nextId := db.nextId + 1 })
  let neighborhood : Option Row :=
    if (pyGet prospect "neighborhood_id").falsy then none
    else singleByVal db₁.neighborhoods "id" (pyGet prospect "neighborhood_id")
  let _context := renderGardenContext req neighborhood
  match oracle with
  | none => ⟨.error (.exn "upstream call failed"), db₁, 1⟩
  | some planData =>
    match rlook prospect "id" with
    | none => ⟨.error (keyErr "id"), db₁, 1⟩
    | some pid =>
      let gardenPlanData : Row :=
        [("prospect_id", pid),
         ("year", .num 2024),
         ("usda_zone", gardenUsdaZone neighborhood),
         ("ai_generated_plan", planData)]
      let (gardenPlan, gpRows) := insertRow "garden_plans" db₁.nextId db₁.garden_plans gardenPlanData
      let db₂ := { db₁ with garden_plans := gpRows, nextId := db₁.nextId + 1 }
      let leadData : Row :=
        [("prospect_id", pid),
         ("source", .str "garden_planner"),
         ("status", .str "new"),
         ("email", .str req.email),
         ("phone", optJ req.phone),
         ("notes", .str ("Created garden plan. Goals: "
            ++ String.intercalate ", " req.primary_goal
            ++ ". Experience: " ++ req.experience_level ++ "."))]
      let (_, leadRows) := insertRow "leads" db₂.nextId db₂.leads leadData
      let db₃ := { db₂ with leads := leadRows, nextId := db₂.nextId + 1 }
      match rlook gardenPlan "id" with
      | none => ⟨.error (keyErr "id"), db₃, 1⟩
      | some gid => ⟨.ok ⟨true, "Garden plan generated successfully!", gid, planData⟩, db₃, 1⟩

/-- `POST /generate-personalized-plan`: the route has only a bare
`except Exception` clause. -/
def generatePersonalizedPlan (db : DB) (req : GardenReq) (oracle : Option JVal) :
    HOut GardenBody :=
  wrapAll "Failed to generate garden plan: " (gardenCore db req oracle)

/-- The string id of a lead row, when `row['id']` is a string (the shape
`batch_score_leads` can process). -/
def rowIdStr (r : Row) : Option String :=
  match rlook r "id" with
  | some (JVal.str s) => some s
  | _ => none

/-- A batch item can only be scored if its row has a string id for which
the model oracle answers. -/
def scoreCanSucceed (oracle : String → Option Row) (r : Row) : Bool :=
  match rowIdStr r with
  | some s => (oracle s).isSome
  | none => false

/-! # Theorems

Lemmas about the embedded definitions, followed by the claim theorems. -/

mutual

theorem JVal.beq_refl : ∀ v : JVal, JVal.beq v v = true
  | .null => rfl
  | .bool b => by simp [JVal.beq]
  | .num q => by simp [JVal.beq]
  | .str s => by simp [JVal.beq]
  | .arr xs => JVal.beqList_refl xs
  | .obj fs => JVal.beqFields_refl fs

theorem JVal.beqList_refl : ∀ xs : List JVal, JVal.beqList xs xs = true
  | [] => rfl
  | x :: xs => by
    rw [show JVal.beqList (x :: xs) (x :: xs) = (JVal.beq x x && JVal.beqList xs xs) from rfl,
      JVal.beq_refl x, JVal.beqList_refl xs]
    rfl

theorem JVal.beqFields_refl : ∀ fs : List (String × JVal), JVal.beqFields fs fs = true
  | [] => rfl
  | (k, v) :: fs => by
    rw [show JVal.beqFields ((k, v) :: fs) ((k, v) :: fs)
        = (k == k && JVal.beq v v && JVal.beqFields fs fs) from rfl,
      JVal.beq_refl v, JVal.beqFields_refl fs]
    simp

end

/-- Only a string equal to `s` is `==` to `JVal.str s`. -/
theorem JVal.eq_str_of_beq {x : JVal} {s : String} (h : JVal.beq x (.str s) = true) :
    x = .str s := by
  cases x <;> simp [JVal.beq] at h ⊢
  exact h

section RowLemmas

theorem rlook_nil (k : String) : rlook [] k = none := rfl

theorem rlook_cons (p : String × JVal) (r : Row) (k : String) :
    rlook (p :: r) k = if p.1 = k then some p.2 else rlook r k := by
  by_cases h : p.1 = k
  · rw [rlook, List.find?_cons_of_pos _ (by simp [h]), if_pos h]
    rfl
  · rw [rlook, List.find?_cons_of_neg _ (by simp [h]), if_neg h]
    rfl

theorem rlook_append (r₁ r₂ : Row) (k : String) :
    rlook (r₁ ++ r₂) k = (rlook r₁ k).or (rlook r₂ k) := by
  induction r₁ with
  | nil => simp [rlook_nil]
  | cons p r ih =>
    rw [List.cons_append, rlook_cons, rlook_cons]
    by_cases h : p.1 = k <;> simp [h, ih]

theorem rlook_eq_none_iff (r : Row) (k : String) :
    rlook r k = none ↔ ∀ p ∈ r, p.1 ≠ k := by
  simp [rlook, List.find?_eq_none]

/-- The observable behaviour of `rset`: lookups after a dict assignment. -/
theorem rlook_rset (r : Row) (k : String) (v : JVal) (k' : String) :
    rlook (rset r k v) k' = if k' = k then some v else rlook r k' := by
  unfold rset
  by_cases hs : (rlook r k).isSome
  · rw [if_pos hs]
    induction r with
    | nil => simp [rlook_nil] at hs
    | cons p r ih =>
      rw [rlook_cons] at hs
      by_cases hp : p.1 = k
      · have hpk : (p.1 == k) = true := by simp [hp]
        rw [List.map_cons, if_pos hpk, rlook_cons]
        by_cases hk : k' = k
        · simp [hk]
        · rw [if_neg (by simpa using Ne.symm hk) , if_neg hk, rlook_cons,
            if_neg (fun h => hk (hp.symm.trans h).symm)]
          by_cases hr : (rlook r k).isSome
          · rw [ih hr, if_neg hk]
          · have hn : rlook r k = none := Option.not_isSome_iff_eq_none.mp hr
            -- no further binding of k in r, so mapping is the identity there
            clear ih hs hpk
            induction r with
            | nil => simp
            | cons q r ihr =>
              rw [rlook_cons] at hn
              by_cases hq : q.1 = k
              · simp [hq] at hn
              · rw [if_neg hq] at hn
                have hqk : ¬((q.1 == k) = true) := by simp [hq]
                rw [List.map_cons, if_neg hqk, rlook_cons, rlook_cons]
                by_cases hqk' : q.1 = k'
                · simp [hqk']
                · rw [if_neg hqk', if_neg hqk', ihr (by simp [hn]) hn]
      · rw [if_neg hp] at hs
        have hpk : ¬((p.1 == k) = true) := by simp [hp]
        rw [List.map_cons, if_neg hpk, rlook_cons, ih hs]
        by_cases hk : k' = k
        · rw [if_pos hk, if_pos hk, if_neg (hk ▸ hp)]
        · rw [if_neg hk, if_neg hk, rlook_cons]
  · have hn : rlook r k = none := Option.not_isSome_iff_eq_none.mp hs
    rw [if_neg hs, rlook_append]
    by_cases hk : k' = k
    · subst hk
      rw [hn, rlook_cons]
      simp
    · rw [rlook_cons, rlook_nil, if_neg (fun h => hk h.symm), if_neg hk]
      cases rlook r k' <;> rfl

theorem rlook_rset_self (r : Row) (k : String) (v : JVal) :
    rlook (rset r k v) k = some v := by
  rw [rlook_rset, if_pos rfl]

theorem rlook_rset_ne (r : Row) (k : String) (v : JVal) (k' : String) (h : k' ≠ k) :
    rlook (rset r k v) k' = rlook r k' := by
  rw [rlook_rset, if_neg h]

/-- A row with a bound key is nonempty. -/
theorem ne_nil_of_rlook {r : Row} {k : String} {v : JVal} (h : rlook r k = some v) :
    r ≠ [] := by
  intro hnil
  subst hnil
  simp [rlook_nil] at h

/-- Folding `rset` over bindings that never touch `k` leaves lookups of `k`
unchanged. -/
theorem rlook_foldl_rset_of_none (rest : Row) (k : String) (h : rlook rest k = none) :
    ∀ b : Row, rlook (List.foldl (fun acc kv => rset acc kv.1 kv.2) b rest) k = rlook b k := by
  induction rest with
  | nil => intro b; rfl
  | cons q qs ih =>
    intro b
    rw [rlook_cons] at h
    by_cases hq : q.1 = k
    · simp [hq] at h
    · rw [if_neg hq] at h
      rw [List.foldl_cons, ih h, rlook_rset_ne _ _ _ _ (fun hh => hq hh.symm)]

/-- Fields of `new` (with distinct keys) win after `rupdate base new`. -/
theorem rlook_rupdate_of_mem (base : Row) (new : Row) (k : String) (v : JVal)
    (hnd : (new.map Prod.fst).Nodup) (h : rlook new k = some v) :
    rlook (rupdate base new) k = some v := by
  induction new generalizing base with
  | nil => simp [rlook_nil] at h
  | cons p rest ih =>
    rw [rlook_cons] at h
    rw [List.map_cons, List.nodup_cons] at hnd
    rw [rupdate, List.foldl_cons]
    by_cases hp : p.1 = k
    · rw [if_pos hp] at h
      subst hp
      -- p.1 is not a key of rest, so the later updates leave it alone
      have hrest : rlook rest p.1 = none := by
        rw [rlook_eq_none_iff]
        intro q hq hqk
        exact hnd.1 (by rw [← hqk]; exact List.mem_map_of_mem Prod.fst hq)
      rw [rlook_foldl_rset_of_none rest p.1 hrest, rlook_rset_self]
      exact h
    · rw [if_neg hp] at h
      exact ih (rset base p.1 p.2) hnd.2 h

/-- Keys not bound in `new` are unchanged by `rupdate base new`. -/
theorem rlook_rupdate_of_not_mem (base : Row) (new : Row) (k : String)
    (h : rlook new k = none) :
    rlook (rupdate base new) k = rlook base k :=
  rlook_foldl_rset_of_none new k h base

end RowLemmas

theorem roundHalfEven_intCast (n : ℤ) : roundHalfEven (n : ℚ) = n := by
  unfold roundHalfEven
  rw [Int.floor_intCast]
  norm_num

/-- `round(x, 2)` is the identity on half-integers (in particular on the
`(lot − building) * 0.5` values produced from integer square footages). -/
theorem pyRound2_int_half (k : ℤ) : pyRound2 ((k : ℚ) / 2) = (k : ℚ) / 2 := by
  unfold pyRound2
  have h : (100 : ℚ) * ((k : ℚ) / 2) = ((50 * k : ℤ) : ℚ) := by push_cast; ring
  rw [h, roundHalfEven_intCast]
  push_cast
  ring

/-! ## Claim C9 -/

/-- Claim C9: for an existing property record with integer (or absent,
defaulting to `0`) square footages, the lawn-area endpoint returns
`round((lot_size_sqft − building_area_sqft) × 0.5, 2)` — which is exactly
`(lot − building)/2`, negative precisely when the building area exceeds the
lot size (no clamping) — and issues no model call and no datastore write. -/
theorem C9_lawn_area_estimate (db : DB) (propertyId : String) (p : Row)
    (hp : singleByVal db.properties "id" (.str propertyId) = some p)
    (hne : p.isEmpty = false)
    (l b : ℤ)
    (hl : asNum (pyGetD p "lot_size_sqft" (.num 0)) = some (l : ℚ))
    (hb : asNum (pyGetD p "building_area_sqft" (.num 0)) = some (b : ℚ)) :
    (estimateLawnArea db propertyId).res =
      .ok ⟨propertyId, pyGetD p "lot_size_sqft" (.num 0),
        pyGetD p "building_area_sqft" (.num 0), ((l : ℚ) - b) / 2,
        "This is a basic estimation. For accurate measurements, consider aerial image analysis."⟩
    ∧ ((l : ℚ) - b) / 2 = pyRound2 (((l : ℚ) - b) * (1/2))
    ∧ (((l : ℚ) - b) / 2 < 0 ↔ l < b)
    ∧ (estimateLawnArea db propertyId).db = db
    ∧ (estimateLawnArea db propertyId).calls = 0 := by
  have hval : pyRound2 (((l : ℚ) - b) * (1/2)) = ((l : ℚ) - b) / 2 := by
    have hh : ((l : ℚ) - b) * (1/2) = ((l - b : ℤ) : ℚ) / 2 := by push_cast; ring
    rw [hh, pyRound2_int_half]
    push_cast
    ring
  refine ⟨?_, hval.symm, ?_, rfl, rfl⟩
  · simp [estimateLawnArea, wrapAll, estimateLawnAreaCore, hp, hne, hl, hb]
    rw [show ((l : ℚ) - ↑b) * 2⁻¹ = ((l : ℚ) - ↑b) * (1/2) from by ring, hval]
  · rw [div_lt_iff₀ (by norm_num : (0:ℚ) < 2), zero_mul, sub_neg]
    exact_mod_cast Iff.rfl

/-- Witness for C9, at a property whose `lot_size_sqft` is absent (so `0` is
substituted) and whose building area is `100`: the estimate is `-50`,
negative because the building exceeds the lot. -/
theorem C9_lawn_area_estimate_witness :
    (estimateLawnArea
        { properties := [[("id", .str "P1"), ("building_area_sqft", .num 100)]] } "P1").res =
      .ok ⟨"P1", .num 0, .num 100, ((0 : ℚ) - 100) / 2,
        "This is a basic estimation. For accurate measurements, consider aerial image analysis."⟩
    ∧ ((0 : ℚ) - 100) / 2 = pyRound2 (((0 : ℚ) - 100) * (1/2))
    ∧ (((0 : ℚ) - 100) / 2 < 0 ↔ (0 : ℤ) < 100)
    ∧ (estimateLawnArea
        { properties := [[("id", .str "P1"), ("building_area_sqft", .num 100)]] } "P1").db =
      { properties := [[("id", .str "P1"), ("building_area_sqft", .num 100)]] }
    ∧ (estimateLawnArea
        { properties := [[("id", .str "P1"), ("building_area_sqft", .num 100)]] } "P1").calls = 0 := by
  have h := C9_lawn_area_estimate
    { properties := [[("id", .str "P1"), ("building_area_sqft", .num 100)]] } "P1"
    [("id", .str "P1"), ("building_area_sqft", .num 100)] (by rfl) (by rfl) 0 100
    (by decide) (by decide)
  exact h

/-! ## Claim C10 -/

/-- Claim C10: whenever the rainfall-summary endpoint answers successfully,
its `watering_needed` flag is `true` exactly when the rainfall sum over the
returned daily records (missing values reading as `0`) is strictly below
`1.0` — whatever the requested `days` — and `total_rainfall_inches` is that
sum rounded to two decimals; the datastore is not written. -/
theorem C10_rainfall_summary (db : DB) (zip : String) (days today : ℤ)
    (body : RainBody) (hbody : (getRainfallSummary db zip days today).res = .ok body)
    (S : ℚ) (hS : sumRainfall body.daily_data = some S) :
    (body.watering_needed = true ↔ S < 1)
    ∧ body.total_rainfall_inches = pyRound2 S
    ∧ (getRainfallSummary db zip days today).db = db
    ∧ (getRainfallSummary db zip days today).calls = 0 := by
  unfold getRainfallSummary at hbody ⊢
  cases h : sumRainfall (db.weather_data.filter (fun r =>
      (pyGet r "zip_code" == JVal.str zip) && dateGe r (today - days))) with
  | none =>
    simp only [h, wrapAll] at hbody
    exact absurd hbody (by simp)
  | some total =>
    simp only [h, Except.ok.injEq] at hbody
    subst hbody
    simp only [h, Option.some_inj] at hS
    subst hS
    refine ⟨decide_eq_true_iff, rfl, ?_, ?_⟩ <;> simp only [h]

/-- Witness for C10: two weather rows in the window, rainfall `0.3` and a
missing value (read as `0`): the flag is on because `0.3 < 1`. -/
theorem C10_rainfall_summary_witness :
    ((getRainfallSummary
        { weather_data := [[("zip_code", .str "30606"), ("date", .num 95),
            ("rainfall_inches", .num (3/10))],
          [("zip_code", .str "30606"), ("date", .num 96)]] } "30606" 7 100).res =
      .ok ⟨"30606", 7, pyRound2 (3/10 + (0 + 0)),
        [[("zip_code", .str "30606"), ("date", .num 95), ("rainfall_inches", .num (3/10))],
         [("zip_code", .str "30606"), ("date", .num 96)]],
        decide ((3/10 + (0 + 0) : ℚ) < 1)⟩)
    ∧ ((decide ((3/10 + (0 + 0) : ℚ) < 1) = true) ↔ (3/10 + (0 + 0) : ℚ) < 1) := by
  have h := C10_rainfall_summary
    { weather_data := [[("zip_code", .str "30606"), ("date", .num 95),
        ("rainfall_inches", .num (3/10))],
      [("zip_code", .str "30606"), ("date", .num 96)]] } "30606" 7 100
    ⟨"30606", 7, pyRound2 (3/10 + (0 + 0)),
      [[("zip_code", .str "30606"), ("date", .num 95), ("rainfall_inches", .num (3/10))],
       [("zip_code", .str "30606"), ("date", .num 96)]],
      decide ((3/10 + (0 + 0) : ℚ) < 1)⟩ (by rfl) (3/10 + (0 + 0)) (by rfl)
  exact ⟨by rfl, h.1⟩



/-! ## Claim C1 -/

/-- Claim C1 (code bug): `generate_neighborhood_ads` raises
`HTTPException(404, "Campaign not found")` for a missing campaign, but its
own `except Exception` clause catches that exception and re-wraps it, so
the endpoint actually answers 500 with the 404 buried in the detail text.
No model call is issued and nothing is written. -/
theorem C1_missing_campaign_wrapped_500 :
    (generateNeighborhoodAds {}
        { campaign_id := "camp-missing", neighborhood_ids := ["hood-1"],
          ad_type := "image", platforms := ["facebook"] } (fun _ => none)).res =
      .error (500, "Ad generation failed: 404: Campaign not found")
    ∧ (generateNeighborhoodAds {}
        { campaign_id := "camp-missing", neighborhood_ids := ["hood-1"],
          ad_type := "image", platforms := ["facebook"] } (fun _ => none)).calls = 0
    ∧ (generateNeighborhoodAds {}
        { campaign_id := "camp-missing", neighborhood_ids := ["hood-1"],
          ad_type := "image", platforms := ["facebook"] } (fun _ => none)).db = {} :=
  ⟨by rfl, by rfl, by rfl⟩

/-! ## Claim C3 -/

/-- Counterexample to claim C3 as stated: the model answers the empty JSON
object — its key set misses every key of the scoring template's declared
schema — yet `score_lead` succeeds, silently substituting the literal
defaults (`50`, `0`, `{}`, `""`, `[]`); no `SchemaViolationError` (or any
error) is raised. -/
theorem C3_counterexample_silent_default :
    (scoreLead { leads := [[("id", JVal.str "L1")]] } "L1" (some [])).res =
      .ok ⟨"L1", .num 50, .num 0, .obj [], .str "", .arr []⟩
    ∧ "score" ∈ scoreSchemaKeys
    ∧ rlook ([] : Row) "score" = none :=
  ⟨by rfl, by decide, by rfl⟩

/-- Claim C3 (amended): parsed model responses are not validated against the
originating template's declared schema and no `SchemaViolationError`
exists.  Lead scoring reads every declared key with `result.get(key,
default)`, silently defaulting absent keys; ad generation indexes the
required variant keys directly, so an absent key surfaces as an untyped
`KeyError` re-wrapped into a 500 response. -/
theorem C3_amended_unvalidated_parse :
    (∀ db leadId lead, singleByVal db.leads "id" (.str leadId) = some lead →
      lead.isEmpty = false → ∀ ctx, renderScorePrompt lead = some ctx →
      (scoreLead db leadId (some [])).res =
        .ok ⟨leadId, .num 50, .num 0, .obj [], .str "", .arr []⟩)
    ∧ (∀ db req nid campaign nb ctx,
        singleByVal db.ad_campaigns "id" (.str req.campaign_id) = some campaign →
        campaign.isEmpty = false →
        req.neighborhood_ids = [nid] →
        singleByVal db.neighborhoods "id" (.str nid) = some nb →
        nb.isEmpty = false →
        renderAdPrompt req nb = some ctx →
        (generateNeighborhoodAds db req (fun _ =>
            some (.obj [("variants", .arr [.obj [("platform", .str "facebook")]])]))).res =
          .error (500, "Ad generation failed: \x27headline\x27")) := by
  constructor
  · intro db leadId lead hlead hne ctx hctx
    simp [scoreLead, wrapPass, scoreLeadCore, hlead, hne, hctx, mkScoreBody,
      pyGetD, rlook_nil]
  · intro db req nid campaign nb ctx hcamp hcne hids hnb hnbne hctx
    simp [generateNeighborhoodAds, wrapAll, adsCore, hcamp, hcne, hids, adsNbLoop,
      hnb, hnbne, hctx, getVariants, pyGetD, adsVariantLoop, rlook_cons, rlook_nil,
      keyErr, pyErrStr]

/-- Witness for the amended C3, at a one-lead / one-campaign datastore. -/
theorem C3_amended_witness :
    (scoreLead { leads := [[("id", JVal.str "L2")]] } "L2" (some [])).res =
      .ok ⟨"L2", .num 50, .num 0, .obj [], .str "", .arr []⟩
    ∧ (generateNeighborhoodAds
        { ad_campaigns := [[("id", JVal.str "camp-1")]],
          neighborhoods := [[("id", JVal.str "hood-1")]] }
        { campaign_id := "camp-1", neighborhood_ids := ["hood-1"],
          ad_type := "image", platforms := ["facebook"] }
        (fun _ => some (.obj [("variants", .arr [.obj [("platform", .str "facebook")]])]))).res =
      .error (500, "Ad generation failed: \x27headline\x27") :=
  ⟨C3_amended_unvalidated_parse.1 _ "L2" [("id", JVal.str "L2")] (by rfl) (by rfl) _ (by rfl),
   C3_amended_unvalidated_parse.2 _ _ "hood-1" [("id", JVal.str "camp-1")]
     [("id", JVal.str "hood-1")] _ (by rfl) (by rfl) (by rfl) (by rfl) (by rfl) (by rfl)⟩

/-! ## Claim C4 -/

/-- Counterexample to claim C4 as stated: `generate_customer_embedding`
calls `upsert` with no `on_conflict` key, so under the repository's own
upsert semantics (`FakeSupabase._handle_upsert`) invoking the path twice for
the same `customer_id` appends **two** rows to `customer_embeddings`, not
one. -/
theorem C4_counterexample_double_upsert_two_rows :
    ((customerEmbedding
        ((customerEmbedding { customers := [[("id", JVal.str "CU1")]] } "CU1"
            (some [1])).db)
        "CU1" (some [2])).db).customer_embeddings.length = 2
    ∧ ((customerEmbedding
        ((customerEmbedding { customers := [[("id", JVal.str "CU1")]] } "CU1"
            (some [1])).db)
        "CU1" (some [2])).res) =
      .ok ⟨"Customer embedding generated successfully", "CU1"⟩ :=
  ⟨by rfl, by rfl⟩

theorem upsertRows_singleton_match (pred : Row → Bool) (payload stored : Row)
    (h : pred stored = true) :
    upsertRows pred payload [stored] =
      (some (rupdate stored payload), [rupdate stored payload]) := by
  unfold upsertRows
  rw [if_pos h]

theorem rlook_ensureId_ne (tbl : String) (n : Nat) (r : Row) (k : String)
    (h : k ≠ "id") : rlook (ensureId tbl n r) k = rlook r k := by
  unfold ensureId
  by_cases hf : (pyGet r "id").falsy
  · rw [if_pos hf, rlook_rset_ne _ _ _ _ h]
  · rw [if_neg hf]

/-- Claim C4 (amended): the merge semantics the claim describes do hold for
the repository's upsert **when a conflict key is supplied**: two upserts
keyed on `customer_id` with the same `customer_id` value leave exactly one
stored row, the second payload's fields overriding the first's.  The
customer-embedding path itself passes no conflict key, so it appends a row
per call (see the counterexample). -/
theorem C4_amended_upsert_with_conflict_key (r₁ r₂ : Row) (v : JVal)
    (h₁ : rlook r₁ "customer_id" = some v) (h₂ : rlook r₂ "customer_id" = some v)
    (hnd : (r₂.map Prod.fst).Nodup) :
    (handleUpsert "customer_embeddings" 1
        (handleUpsert "customer_embeddings" 0 [] r₁ (some "customer_id")).2.1
        r₂ (some "customer_id")).2.1
      = [rupdate (ensureId "customer_embeddings" 0 r₁) r₂]
    ∧ ∀ k w, rlook r₂ k = some w →
        rlook (rupdate (ensureId "customer_embeddings" 0 r₁) r₂) k = some w := by
  have hid : rlook (ensureId "customer_embeddings" 0 r₁) "customer_id" = some v := by
    rw [rlook_ensureId_ne _ _ _ _ (by decide)]
    exact h₁
  have hpred : ((fun stored =>
        !(List.map pyStrip (splitComma "customer_id")).isEmpty
        && (List.map pyStrip (splitComma "customer_id")).all
          (fun f => pyGet stored f == pyGet r₂ f))
      (ensureId "customer_embeddings" 0 r₁)) = true := by
    show (!(["customer_id"] : List String).isEmpty
      && (["customer_id"] : List String).all
        (fun f => pyGet (ensureId "customer_embeddings" 0 r₁) f == pyGet r₂ f)) = true
    simp only [List.isEmpty, List.all, Bool.and_true, Bool.not_false, Bool.true_and]
    show (pyGet (ensureId "customer_embeddings" 0 r₁) "customer_id" == pyGet r₂ "customer_id") = true
    rw [pyGet, pyGet, hid, h₂]
    exact JVal.beq_refl v
  constructor
  · have e₁ : (handleUpsert "customer_embeddings" 0 [] r₁ (some "customer_id")).2.1
        = [ensureId "customer_embeddings" 0 r₁] := rfl
    rw [e₁]
    show (handleUpsert "customer_embeddings" 1 [ensureId "customer_embeddings" 0 r₁]
        r₂ (some "customer_id")).2.1 = _
    unfold handleUpsert
    simp only []
    rw [upsertRows_singleton_match
      (fun stored => !(List.map pyStrip (splitComma "customer_id")).isEmpty
        && (List.map pyStrip (splitComma "customer_id")).all
          (fun f => pyGet stored f == pyGet r₂ f))
      r₂ (ensureId "customer_embeddings" 0 r₁) hpred]
  · intro k w hin
    exact rlook_rupdate_of_mem _ _ _ _ hnd hin

/-- Witness for the amended C4: two concrete payloads for customer `CU1`;
one row remains and the second embedding value wins. -/
theorem C4_amended_witness :
    (handleUpsert "customer_embeddings" 1
        (handleUpsert "customer_embeddings" 0 []
          [("customer_id", JVal.str "CU1"), ("embedding", JVal.num 1)]
          (some "customer_id")).2.1
        [("customer_id", JVal.str "CU1"), ("embedding", JVal.num 2)]
        (some "customer_id")).2.1
      = [rupdate (ensureId "customer_embeddings" 0
          [("customer_id", JVal.str "CU1"), ("embedding", JVal.num 1)])
          [("customer_id", JVal.str "CU1"), ("embedding", JVal.num 2)]]
    ∧ rlook (rupdate (ensureId "customer_embeddings" 0
          [("customer_id", JVal.str "CU1"), ("embedding", JVal.num 1)])
          [("customer_id", JVal.str "CU1"), ("embedding", JVal.num 2)]) "embedding"
        = some (JVal.num 2) := by
  have h := C4_amended_upsert_with_conflict_key
    [("customer_id", JVal.str "CU1"), ("embedding", JVal.num 1)]
    [("customer_id", JVal.str "CU1"), ("embedding", JVal.num 2)]
    (JVal.str "CU1") (by rfl) (by rfl) (by decide)
  exact ⟨h.1, h.2 "embedding" (JVal.num 2) (by rfl)⟩


/-! ## Claim C2 -/

/-- Counterexample to claim C2 as stated: a successful `score_lead` request
makes one model call but persists **nothing** — the handler only returns the
scores; `"exactly one persisted record per successful request"` fails. -/
theorem C2_counterexample_score_persists_nothing :
    (scoreLead { leads := [[("id", JVal.str "L1")]] } "L1"
        (some [("score", JVal.num 77)])).res =
      .ok ⟨"L1", .num 77, .num 0, .obj [], .str "", .arr []⟩
    ∧ totalRows (scoreLead { leads := [[("id", JVal.str "L1")]] } "L1"
        (some [("score", JVal.num 77)])).db =
      totalRows { leads := [[("id", JVal.str "L1")]] }
    ∧ (scoreLead { leads := [[("id", JVal.str "L1")]] } "L1"
        (some [("score", JVal.num 77)])).calls = 1 :=
  ⟨by rfl, by rfl, by rfl⟩

/-- Claim C2 (amended): each non-batch endpoint that reaches its upstream
call makes exactly one model call per invocation, but the persisted-record
count is endpoint-specific, not one: lead scoring persists zero records on
success; the garden-plan endpoint persists two records (plan and lead) for
an existing prospect; and when its model call fails after a prospect had to
be created, the failing request still leaves that one inserted prospect
behind. -/
theorem C2_amended_per_endpoint_effects :
    (∀ db leadId lead result ctx,
      singleByVal db.leads "id" (.str leadId) = some lead →
      lead.isEmpty = false →
      renderScorePrompt lead = some ctx →
      (scoreLead db leadId (some result)).res = .ok (mkScoreBody leadId result)
      ∧ (scoreLead db leadId (some result)).db = db
      ∧ (scoreLead db leadId (some result)).calls = 1)
    ∧ (∀ db req plan prospect,
      (db.prospects.filter (ilikePred req.address)).head? = some prospect →
      (rlook prospect "id").isSome = true →
      ((generatePersonalizedPlan db req (some plan)).res).isOk = true
      ∧ totalRows (generatePersonalizedPlan db req (some plan)).db = totalRows db + 2
      ∧ (generatePersonalizedPlan db req (some plan)).calls = 1)
    ∧ (∀ db req,
      db.prospects.filter (ilikePred req.address) = [] →
      ((generatePersonalizedPlan db req none).res).isOk = false
      ∧ totalRows (generatePersonalizedPlan db req none).db = totalRows db + 1
      ∧ (generatePersonalizedPlan db req none).calls = 1) := by
  refine ⟨?_, ?_, ?_⟩
  · intro db leadId lead result ctx hlead hne hctx
    refine ⟨?_, rfl, ?_⟩ <;>
      simp [scoreLead, wrapPass, scoreLeadCore, hlead, hne, hctx]
  · intro db req plan prospect hfound hpid
    have hgp : ∀ (n : Nat) (pid uz plan : JVal),
        rlook (ensureId "garden_plans" n
          [("prospect_id", pid), ("year", JVal.num 2024), ("usda_zone", uz),
           ("ai_generated_plan", plan)]) "id"
        = some (JVal.str ("garden_plans-" ++ toString n)) := fun _ _ _ _ => rfl
    cases hid : rlook prospect "id" with
    | none => rw [hid] at hpid; simp at hpid
    | some pid =>
      unfold generatePersonalizedPlan wrapAll gardenCore
      simp only [hfound, hid, insertRow, hgp]
      refine ⟨?_, ?_, ?_⟩
      · rfl
      · simp only [totalRows, insertRow, List.length_append, List.length_cons,
          List.length_nil]
        omega
      · trivial
  · intro db req hfilter
    unfold generatePersonalizedPlan wrapAll gardenCore
    simp only [hfilter, List.head?_nil]
    refine ⟨?_, ?_, ?_⟩
    · rfl
    · simp only [totalRows, insertRow, List.length_append, List.length_cons,
        List.length_nil]
      omega
    · trivial

/-- Witness for the amended C2: a scored lead persisting nothing, a garden
plan for an existing prospect persisting two rows, and a failed garden plan
for a new prospect persisting the prospect. -/
theorem C2_amended_witness :
    ((scoreLead { leads := [[("id", JVal.str "L1")]] } "L1"
        (some [("score", JVal.num 9)])).res = .ok (mkScoreBody "L1" [("score", JVal.num 9)])
      ∧ (scoreLead { leads := [[("id", JVal.str "L1")]] } "L1"
        (some [("score", JVal.num 9)])).db = { leads := [[("id", JVal.str "L1")]] }
      ∧ (scoreLead { leads := [[("id", JVal.str "L1")]] } "L1"
        (some [("score", JVal.num 9)])).calls = 1)
    ∧ (((generatePersonalizedPlan
          { prospects := [[("id", JVal.str "PR1"), ("street_address", JVal.str "123 Main St")]] }
          { address := "123 Main St", primary_goal := ["veg"], time_commitment := "low",
            experience_level := "beginner", garden_size := "small",
            harvest_preferences := ["tomatoes"], email := "a@b.c" }
          (some (.obj []))).res).isOk = true
      ∧ totalRows (generatePersonalizedPlan
          { prospects := [[("id", JVal.str "PR1"), ("street_address", JVal.str "123 Main St")]] }
          { address := "123 Main St", primary_goal := ["veg"], time_commitment := "low",
            experience_level := "beginner", garden_size := "small",
            harvest_preferences := ["tomatoes"], email := "a@b.c" }
          (some (.obj []))).db =
        totalRows { prospects := [[("id", JVal.str "PR1"), ("street_address", JVal.str "123 Main St")]] } + 2
      ∧ (generatePersonalizedPlan
          { prospects := [[("id", JVal.str "PR1"), ("street_address", JVal.str "123 Main St")]] }
          { address := "123 Main St", primary_goal := ["veg"], time_commitment := "low",
            experience_level := "beginner", garden_size := "small",
            harvest_preferences := ["tomatoes"], email := "a@b.c" }
          (some (.obj []))).calls = 1)
    ∧ (((generatePersonalizedPlan {}
          { address := "9 Elm", primary_goal := ["veg"], time_commitment := "low",
            experience_level := "beginner", garden_size := "small",
            harvest_preferences := ["tomatoes"], email := "a@b.c" } none).res).isOk = false
      ∧ totalRows (generatePersonalizedPlan {}
          { address := "9 Elm", primary_goal := ["veg"], time_commitment := "low",
            experience_level := "beginner", garden_size := "small",
            harvest_preferences := ["tomatoes"], email := "a@b.c" } none).db =
        totalRows ({} : DB) + 1
      ∧ (generatePersonalizedPlan {}
          { address := "9 Elm", primary_goal := ["veg"], time_commitment := "low",
            experience_level := "beginner", garden_size := "small",
            harvest_preferences := ["tomatoes"], email := "a@b.c" } none).calls = 1) :=
  ⟨C2_amended_per_endpoint_effects.1 _ "L1" [("id", JVal.str "L1")] [("score", JVal.num 9)]
      _ (by rfl) (by rfl) (by rfl),
   C2_amended_per_endpoint_effects.2.1 _ _ (.obj [])
      [("id", JVal.str "PR1"), ("street_address", JVal.str "123 Main St")] (by rfl) (by rfl),
   C2_amended_per_endpoint_effects.2.2 _ _ (by rfl)⟩


/-! ## Claims C6 and C7 -/

/-- A single-neighborhood, single-variant success run of
`generate_neighborhood_ads`: the full evaluation, shared by C6 and C7. -/
theorem adsGenerate_single_success
    (db : DB) (req : AdReq) (oracle : String → Option JVal)
    (nid : String) (campaign nb : Row) (ctx : String) (vfields : Row)
    (platform : String) (headline bodyText cta : JVal)
    (hcamp : singleByVal db.ad_campaigns "id" (.str req.campaign_id) = some campaign)
    (hcne : campaign.isEmpty = false)
    (hids : req.neighborhood_ids = [nid])
    (hnb : singleByVal db.neighborhoods "id" (.str nid) = some nb)
    (hnbne : nb.isEmpty = false)
    (hctx : renderAdPrompt req nb = some ctx)
    (horacle : oracle nid = some (.obj [("variants", .arr [.obj vfields])]))
    (hplat : rlook vfields "platform" = some (.str platform))
    (hhead : rlook vfields "headline" = some headline)
    (hbody : rlook vfields "body" = some bodyText)
    (hcta : rlook vfields "cta" = some cta) :
    (generateNeighborhoodAds db req oracle).res =
      .ok ⟨"Generated 1 ad variants across 1 neighborhoods",
        [ensureId "ad_creatives" db.nextId
          (creativeData req nid nb ctx platform headline bodyText cta vfields)],
        req.use_model⟩
    ∧ (generateNeighborhoodAds db req oracle).db =
      { db with
        ad_creatives := db.ad_creatives ++ [ensureId "ad_creatives" db.nextId
          (creativeData req nid nb ctx platform headline bodyText cta vfields)],
        nextId := db.nextId + 1 }
    ∧ (generateNeighborhoodAds db req oracle).calls = 1 := by
  unfold generateNeighborhoodAds wrapAll adsCore
  simp only [hcamp, hcne, hids, adsNbLoop, hnb, hnbne, hctx, horacle, getVariants,
    pyGetD, rlook_cons, rlook_nil, adsVariantLoop, hplat, hhead, hbody, hcta,
    insertRow, Bool.false_eq_true, if_false, if_true, Option.getD_some,
    Option.getD_none, List.nil_append, List.length_cons, List.length_nil]
  refine ⟨?_, ?_, ?_⟩ <;> first | rfl | trivial

/-- The rendered ad prompt always exceeds 500 characters: its fixed tail
alone does. -/
theorem renderAdPrompt_length (req : AdReq) (nb : Row) (ctx : String)
    (h : renderAdPrompt req nb = some ctx) : 500 < ctx.length := by
  unfold renderAdPrompt at h
  cases hg : joinStrs (pyGetD nb "common_grass_types" (.arr [])) with
  | none => rw [hg] at h; simp at h
  | some grass =>
    rw [hg] at h
    cases ha : asNum (pyGetD nb "avg_home_value" (.num 0)) with
    | none => rw [ha] at h; simp at h
    | some homeValue =>
      rw [ha] at h
      simp only [Option.some_bind', Option.map_some', Option.some_inj] at h
      subst h
      simp only [String.length_append]
      have htail : 500 < adTail.length := by
        simp only [adTail, String.length_append]
        have e₁ : ("\n\n            IMPORTANT - Create ad copy that:\n" : String).length = 47 := by decide
        have e₂ : ("            1. STARTS with an engaging LOCAL FACTOID about growing in this specific neighborhood\n" : String).length = 97 := by decide
        have e₃ : ("               Examples of great factoids:\n" : String).length = 43 := by decide
        have e₄ : ("               - \"Oak Ridge gardeners: Did you know our clay-loam soil retains 40% more moisture than sandy soil? Perfect for tomatoes!\"\n" : String).length = 137 := by decide
        have e₅ : ("               - \"Maple Heights: Your Zone 5b allows 180+ growing days - longer than 60% of Illinois!\"\n" : String).length = 103 := by decide
        have e₆ : ("               - \"River Bend\x27s sandy soil drains fast - that\x27s why your garden needs watering 2x more than Oak Ridge neighbors\"\n" : String).length = 128 := by decide
        omega
      omega


/-- Claim C6: posting an ad-generation request for one existing campaign
and one existing neighborhood, with the model returning exactly one
well-formed variant, appends exactly one row to `ad_creatives`, and that
row carries the requested neighborhood's id and the requested model name. -/
theorem C6_ad_generation_inserts_one_row
    (db : DB) (req : AdReq) (oracle : String → Option JVal)
    (nid : String) (campaign nb : Row) (ctx : String) (vfields : Row)
    (platform : String) (headline bodyText cta : JVal)
    (hcamp : singleByVal db.ad_campaigns "id" (.str req.campaign_id) = some campaign)
    (hcne : campaign.isEmpty = false)
    (hids : req.neighborhood_ids = [nid])
    (hnb : singleByVal db.neighborhoods "id" (.str nid) = some nb)
    (hnbne : nb.isEmpty = false)
    (hctx : renderAdPrompt req nb = some ctx)
    (horacle : oracle nid = some (.obj [("variants", .arr [.obj vfields])]))
    (hplat : rlook vfields "platform" = some (.str platform))
    (hhead : rlook vfields "headline" = some headline)
    (hbody : rlook vfields "body" = some bodyText)
    (hcta : rlook vfields "cta" = some cta) :
    (generateNeighborhoodAds db req oracle).db.ad_creatives =
      db.ad_creatives ++ [ensureId "ad_creatives" db.nextId
        (creativeData req nid nb ctx platform headline bodyText cta vfields)]
    ∧ rlook (ensureId "ad_creatives" db.nextId
        (creativeData req nid nb ctx platform headline bodyText cta vfields))
        "neighborhood_id" = some (.str nid)
    ∧ rlook (ensureId "ad_creatives" db.nextId
        (creativeData req nid nb ctx platform headline bodyText cta vfields))
        "ai_model" = some (.str req.use_model)
    ∧ ((generateNeighborhoodAds db req oracle).res).isOk = true
    ∧ (generateNeighborhoodAds db req oracle).calls = 1 := by
  have h := adsGenerate_single_success db req oracle nid campaign nb ctx vfields
    platform headline bodyText cta hcamp hcne hids hnb hnbne hctx horacle hplat
    hhead hbody hcta
  refine ⟨by rw [h.2.1], ?_, ?_, by rw [h.1]; rfl, h.2.2⟩
  · rw [rlook_ensureId_ne _ _ _ _ (by decide)]
    simp [creativeData, rlook_cons]
  · rw [rlook_ensureId_ne _ _ _ _ (by decide)]
    simp [creativeData, rlook_cons]

/-- Witness for C6: one campaign, one neighborhood, one variant. -/
theorem C6_ad_generation_inserts_one_row_witness :
    (generateNeighborhoodAds
        { ad_campaigns := [[("id", JVal.str "camp-1")]],
          neighborhoods := [[("id", JVal.str "hood-1"), ("name", JVal.str "Five Points")]] }
        { campaign_id := "camp-1", neighborhood_ids := ["hood-1"], ad_type := "image",
          platforms := ["facebook"] }
        (fun _ => some (.obj [("variants", .arr [.obj
          [("platform", JVal.str "facebook"), ("headline", JVal.str "H"),
           ("body", JVal.str "B"), ("cta", JVal.str "C")]])]))).db.ad_creatives =
      [] ++ [ensureId "ad_creatives" 0
        (creativeData
          { campaign_id := "camp-1", neighborhood_ids := ["hood-1"], ad_type := "image",
            platforms := ["facebook"] }
          "hood-1" [("id", JVal.str "hood-1"), ("name", JVal.str "Five Points")]
          ((renderAdPrompt
            { campaign_id := "camp-1", neighborhood_ids := ["hood-1"], ad_type := "image",
              platforms := ["facebook"] }
            [("id", JVal.str "hood-1"), ("name", JVal.str "Five Points")]).getD "")
          "facebook" (JVal.str "H") (JVal.str "B") (JVal.str "C")
          [("platform", JVal.str "facebook"), ("headline", JVal.str "H"),
           ("body", JVal.str "B"), ("cta", JVal.str "C")])]
    ∧ rlook (ensureId "ad_creatives" 0
        (creativeData
          { campaign_id := "camp-1", neighborhood_ids := ["hood-1"], ad_type := "image",
            platforms := ["facebook"] }
          "hood-1" [("id", JVal.str "hood-1"), ("name", JVal.str "Five Points")]
          ((renderAdPrompt
            { campaign_id := "camp-1", neighborhood_ids := ["hood-1"], ad_type := "image",
              platforms := ["facebook"] }
            [("id", JVal.str "hood-1"), ("name", JVal.str "Five Points")]).getD "")
          "facebook" (JVal.str "H") (JVal.str "B") (JVal.str "C")
          [("platform", JVal.str "facebook"), ("headline", JVal.str "H"),
           ("body", JVal.str "B"), ("cta", JVal.str "C")]))
        "neighborhood_id" = some (JVal.str "hood-1") := by
  have h := C6_ad_generation_inserts_one_row
    { ad_campaigns := [[("id", JVal.str "camp-1")]],
      neighborhoods := [[("id", JVal.str "hood-1"), ("name", JVal.str "Five Points")]] }
    { campaign_id := "camp-1", neighborhood_ids := ["hood-1"], ad_type := "image",
      platforms := ["facebook"] }
    (fun _ => some (.obj [("variants", .arr [.obj
      [("platform", JVal.str "facebook"), ("headline", JVal.str "H"),
       ("body", JVal.str "B"), ("cta", JVal.str "C")]])]))
    "hood-1" [("id", JVal.str "camp-1")]
    [("id", JVal.str "hood-1"), ("name", JVal.str "Five Points")]
    ((renderAdPrompt
      { campaign_id := "camp-1", neighborhood_ids := ["hood-1"], ad_type := "image",
        platforms := ["facebook"] }
      [("id", JVal.str "hood-1"), ("name", JVal.str "Five Points")]).getD "")
    [("platform", JVal.str "facebook"), ("headline", JVal.str "H"),
     ("body", JVal.str "B"), ("cta", JVal.str "C")]
    "facebook" (JVal.str "H") (JVal.str "B") (JVal.str "C")
    (by rfl) (by rfl) (by rfl) (by rfl) (by rfl) (by rfl) (by rfl) (by rfl)
    (by rfl) (by rfl) (by rfl)
  exact ⟨h.1, h.2.1⟩

/-- Claim C7: the prompt provenance stored with a persisted ad creative is
`context[:500]` — a strict truncated prefix of the full rendered prompt
(which always exceeds 500 characters), of exactly 500 characters; the full
prompt itself is never the stored value. -/
theorem C7_prompt_provenance_truncated
    (db : DB) (req : AdReq) (oracle : String → Option JVal)
    (nid : String) (campaign nb : Row) (ctx : String) (vfields : Row)
    (platform : String) (headline bodyText cta : JVal)
    (hcamp : singleByVal db.ad_campaigns "id" (.str req.campaign_id) = some campaign)
    (hcne : campaign.isEmpty = false)
    (hids : req.neighborhood_ids = [nid])
    (hnb : singleByVal db.neighborhoods "id" (.str nid) = some nb)
    (hnbne : nb.isEmpty = false)
    (hctx : renderAdPrompt req nb = some ctx)
    (horacle : oracle nid = some (.obj [("variants", .arr [.obj vfields])]))
    (hplat : rlook vfields "platform" = some (.str platform))
    (hhead : rlook vfields "headline" = some headline)
    (hbody : rlook vfields "body" = some bodyText)
    (hcta : rlook vfields "cta" = some cta) :
    (generateNeighborhoodAds db req oracle).db.ad_creatives =
      db.ad_creatives ++ [ensureId "ad_creatives" db.nextId
        (creativeData req nid nb ctx platform headline bodyText cta vfields)]
    ∧ rlook (ensureId "ad_creatives" db.nextId
        (creativeData req nid nb ctx platform headline bodyText cta vfields))
        "generation_prompt" = some (.str (pyTake ctx 500))
    ∧ (pyTake ctx 500).data <+: ctx.data
    ∧ (pyTake ctx 500).length = 500
    ∧ 500 < ctx.length
    ∧ pyTake ctx 500 ≠ ctx := by
  have h := adsGenerate_single_success db req oracle nid campaign nb ctx vfields
    platform headline bodyText cta hcamp hcne hids hnb hnbne hctx horacle hplat
    hhead hbody hcta
  have hlen : 500 < ctx.length := renderAdPrompt_length req nb ctx hctx
  have hdata : ctx.length = ctx.data.length := rfl
  have htake : (pyTake ctx 500).length = 500 := by
    show (ctx.data.take 500).length = 500
    rw [List.length_take]
    omega
  refine ⟨by rw [h.2.1], ?_, ?_, htake, hlen, ?_⟩
  · rw [rlook_ensureId_ne _ _ _ _ (by decide)]
    simp [creativeData, rlook_cons]
  · exact List.take_prefix 500 ctx.data
  · intro heq
    rw [heq] at htake
    omega

/-- Witness for C7: on the C6 scenario the stored provenance is the 500
character truncation of the prompt, which is strictly shorter than it. -/
theorem C7_prompt_provenance_truncated_witness :
    rlook (ensureId "ad_creatives" 0
        (creativeData
          { campaign_id := "camp-1", neighborhood_ids := ["hood-1"], ad_type := "image",
            platforms := ["facebook"] }
          "hood-1" [("id", JVal.str "hood-1"), ("name", JVal.str "Five Points")]
          ((renderAdPrompt
            { campaign_id := "camp-1", neighborhood_ids := ["hood-1"], ad_type := "image",
              platforms := ["facebook"] }
            [("id", JVal.str "hood-1"), ("name", JVal.str "Five Points")]).getD "")
          "facebook" (JVal.str "H") (JVal.str "B") (JVal.str "C")
          [("platform", JVal.str "facebook"), ("headline", JVal.str "H"),
           ("body", JVal.str "B"), ("cta", JVal.str "C")]))
        "generation_prompt" =
      some (.str (pyTake ((renderAdPrompt
        { campaign_id := "camp-1", neighborhood_ids := ["hood-1"], ad_type := "image",
          platforms := ["facebook"] }
        [("id", JVal.str "hood-1"), ("name", JVal.str "Five Points")]).getD "") 500))
    ∧ (pyTake ((renderAdPrompt
        { campaign_id := "camp-1", neighborhood_ids := ["hood-1"], ad_type := "image",
          platforms := ["facebook"] }
        [("id", JVal.str "hood-1"), ("name", JVal.str "Five Points")]).getD "") 500).length = 500
    ∧ pyTake ((renderAdPrompt
        { campaign_id := "camp-1", neighborhood_ids := ["hood-1"], ad_type := "image",
          platforms := ["facebook"] }
        [("id", JVal.str "hood-1"), ("name", JVal.str "Five Points")]).getD "") 500 ≠
      ((renderAdPrompt
        { campaign_id := "camp-1", neighborhood_ids := ["hood-1"], ad_type := "image",
          platforms := ["facebook"] }
        [("id", JVal.str "hood-1"), ("name", JVal.str "Five Points")]).getD "") := by
  have h := C7_prompt_provenance_truncated
    { ad_campaigns := [[("id", JVal.str "camp-1")]],
      neighborhoods := [[("id", JVal.str "hood-1"), ("name", JVal.str "Five Points")]] }
    { campaign_id := "camp-1", neighborhood_ids := ["hood-1"], ad_type := "image",
      platforms := ["facebook"] }
    (fun _ => some (.obj [("variants", .arr [.obj
      [("platform", JVal.str "facebook"), ("headline", JVal.str "H"),
       ("body", JVal.str "B"), ("cta", JVal.str "C")]])]))
    "hood-1" [("id", JVal.str "camp-1")]
    [("id", JVal.str "hood-1"), ("name", JVal.str "Five Points")]
    ((renderAdPrompt
      { campaign_id := "camp-1", neighborhood_ids := ["hood-1"], ad_type := "image",
        platforms := ["facebook"] }
      [("id", JVal.str "hood-1"), ("name", JVal.str "Five Points")]).getD "")
    [("platform", JVal.str "facebook"), ("headline", JVal.str "H"),
     ("body", JVal.str "B"), ("cta", JVal.str "C")]
    "facebook" (JVal.str "H") (JVal.str "B") (JVal.str "C")
    (by rfl) (by rfl) (by rfl) (by rfl) (by rfl) (by rfl) (by rfl) (by rfl)
    (by rfl) (by rfl) (by rfl)
  exact ⟨h.2.1, h.2.2.2.1, h.2.2.2.2.2⟩


/-! ## Claim C8 -/

/-- A dict assignment never produces an empty dict. -/
theorem rset_isEmpty (r : Row) (k : String) (v : JVal) : (rset r k v).isEmpty = false := by
  unfold rset
  by_cases hs : (rlook r k).isSome
  · rw [if_pos hs]
    cases r with
    | nil => simp [rlook_nil] at hs
    | cons p rest => simp
  · rw [if_neg hs]
    cases r <;> simp

/-- Claim C8: an optional context field that is absent is substituted with
its stated literal default, so rendering an absent field is the same as
rendering the field explicitly set to that default — `usda_hardiness_zone`
defaults to `"5b"` in both the ad and garden prompts, `soil_type` to
`"mixed"` (ads) and `"loam"` (garden); rendering is total, so no error is
raised on a missing optional field. -/
theorem C8_optional_fields_default :
    (∀ (req : AdReq) (nb : Row), rlook nb "usda_hardiness_zone" = none →
      renderAdPrompt req nb =
        renderAdPrompt req (rset nb "usda_hardiness_zone" (.str "5b")))
    ∧ (∀ (req : AdReq) (nb : Row), rlook nb "soil_type" = none →
      renderAdPrompt req nb = renderAdPrompt req (rset nb "soil_type" (.str "mixed")))
    ∧ (∀ (req : GardenReq) (nb : Row), nb.isEmpty = false →
      rlook nb "usda_hardiness_zone" = none →
      renderGardenContext req (some nb) =
        renderGardenContext req (some (rset nb "usda_hardiness_zone" (.str "5b"))))
    ∧ (∀ (req : GardenReq) (nb : Row), nb.isEmpty = false →
      rlook nb "soil_type" = none →
      renderGardenContext req (some nb) =
        renderGardenContext req (some (rset nb "soil_type" (.str "loam")))) := by
  refine ⟨?_, ?_, ?_, ?_⟩
  · intro req nb h
    simp [renderAdPrompt, pyGetD, rlook_rset, h]
  · intro req nb h
    simp [renderAdPrompt, pyGetD, rlook_rset, h]
  · intro req nb hne h
    simp [renderGardenContext, gardenZoneLine, gardenSoilLine, pyGetD, rlook_rset,
      rset_isEmpty, hne, h]
  · intro req nb hne h
    simp [renderGardenContext, gardenZoneLine, gardenSoilLine, pyGetD, rlook_rset,
      rset_isEmpty, hne, h]

/-- Witness for C8 on a neighborhood row with no zone and no soil type. -/
theorem C8_optional_fields_default_witness :
    (renderAdPrompt
        { campaign_id := "c", neighborhood_ids := ["n"], ad_type := "image",
          platforms := ["facebook"] }
        [("name", JVal.str "Five Points")] =
      renderAdPrompt
        { campaign_id := "c", neighborhood_ids := ["n"], ad_type := "image",
          platforms := ["facebook"] }
        (rset [("name", JVal.str "Five Points")] "usda_hardiness_zone" (.str "5b")))
    ∧ (renderGardenContext
        { address := "9 Elm", primary_goal := ["veg"], time_commitment := "low",
          experience_level := "beginner", garden_size := "small",
          harvest_preferences := ["tomatoes"], email := "a@b.c" }
        (some [("name", JVal.str "Five Points")]) =
      renderGardenContext
        { address := "9 Elm", primary_goal := ["veg"], time_commitment := "low",
          experience_level := "beginner", garden_size := "small",
          harvest_preferences := ["tomatoes"], email := "a@b.c" }
        (some (rset [("name", JVal.str "Five Points")] "soil_type" (.str "loam")))) :=
  ⟨C8_optional_fields_default.1 _ [("name", JVal.str "Five Points")] (by rfl),
   C8_optional_fields_default.2.2.2 _ [("name", JVal.str "Five Points")] (by rfl) (by rfl)⟩


/-! ## Claim C5 -/

/-- Inversion for a successful single-lead scoring run: it consumed a model
answer and returned its `get`-with-default projection. -/
theorem scoreLeadCore_ok {db : DB} {s : String} {oracle : Option Row}
    {b : ScoreBody} {c : Nat} (h : scoreLeadCore db s oracle = (.ok b, c)) :
    ∃ res, oracle = some res ∧ b = mkScoreBody s res ∧ c = 1 := by
  unfold scoreLeadCore at h
  cases hl : singleByVal db.leads "id" (.str s) with
  | none => rw [hl] at h; simp at h
  | some lead =>
    rw [hl] at h
    cases he : lead.isEmpty with
    | true => simp [he] at h
    | false =>
      simp only [he, Bool.false_eq_true, if_false] at h
      cases hr : renderScorePrompt lead with
      | none => rw [hr] at h; simp at h
      | some ctx =>
        rw [hr] at h
        cases ho : oracle with
        | none => rw [ho] at h; simp at h
        | some res =>
          rw [ho] at h
          simp only [Prod.mk.injEq, Except.ok.injEq] at h
          exact ⟨res, rfl, h.1.symm, h.2.symm⟩

/-- The batch loop appends one result per successfully scored row, keeps the
count in sync with the results, only ever appends results whose lead id the
oracle answered, and appends no more results than there are rows that could
be scored at all. -/
theorem batchGo_spec (oracle : String → Option Row) (rows : List Row) :
    ∀ (db : DB) (n : Nat) (acc : List ScoreBody) (calls : Nat),
    ∃ (db' : DB) (calls' : Nat) (new : List ScoreBody),
      batchGo oracle rows db n acc calls = (db', n + new.length, acc ++ new, calls')
      ∧ (∀ b ∈ new, (oracle b.lead_id).isSome = true)
      ∧ new.length ≤ (rows.filter (scoreCanSucceed oracle)).length := by
  induction rows with
  | nil =>
    intro db n acc calls
    exact ⟨db, calls, [], by simp [batchGo], by simp, by simp⟩
  | cons lead rest ih =>
    intro db n acc calls
    rw [batchGo]
    have hmono : ∀ m : Nat, m ≤ (rest.filter (scoreCanSucceed oracle)).length →
        m ≤ ((lead :: rest).filter (scoreCanSucceed oracle)).length := by
      intro m hm
      rw [List.filter_cons]
      split
      · simpa using Nat.le_succ_of_le hm
      · exact hm
    cases hid : rlook lead "id" with
    | none =>
      dsimp only
      obtain ⟨db', calls', new, hgo, hmem, hlen⟩ := ih db n acc calls
      exact ⟨db', calls', new, hgo, hmem, hmono _ hlen⟩
    | some idv =>
      cases idv with
      | str sid =>
        dsimp only
        cases hscore : scoreLeadCore db sid (oracle sid) with
        | mk r c =>
          cases r with
          | error e =>
            dsimp only
            obtain ⟨db', calls', new, hgo, hmem, hlen⟩ := ih db n acc (calls + c)
            exact ⟨db', calls', new, hgo, hmem, hmono _ hlen⟩
          | ok body =>
            dsimp only
            obtain ⟨res, hres, hbody, hc⟩ := scoreLeadCore_ok hscore
            obtain ⟨db', calls', new, hgo, hmem, hlen⟩ :=
              ih { db with leads := db.leads.map (fun r =>
                    if pyGet r "id" == JVal.str sid then updScore r body else r) }
                (n + 1) (acc ++ [body]) (calls + c)
            refine ⟨db', calls', body :: new, ?_, ?_, ?_⟩
            · rw [hgo]
              simp only [Prod.mk.injEq, List.append_assoc, List.singleton_append,
                List.length_cons, and_true, true_and]
              omega
            · intro b hb
              rcases List.mem_cons.mp hb with hb | hb
              · subst hb
                rw [hbody]
                show (oracle sid).isSome = true
                rw [hres]
                rfl
              · exact hmem b hb
            · have hcan : scoreCanSucceed oracle lead = true := by
                simp [scoreCanSucceed, rowIdStr, hid, hres]
              rw [List.filter_cons, if_pos (by rw [hcan])]
              simpa using hlen
      | null =>
        dsimp only
        obtain ⟨db', calls', new, hgo, hmem, hlen⟩ := ih db n acc calls
        exact ⟨db', calls', new, hgo, hmem, hmono _ hlen⟩
      | bool x =>
        dsimp only
        obtain ⟨db', calls', new, hgo, hmem, hlen⟩ := ih db n acc calls
        exact ⟨db', calls', new, hgo, hmem, hmono _ hlen⟩
      | num x =>
        dsimp only
        obtain ⟨db', calls', new, hgo, hmem, hlen⟩ := ih db n acc calls
        exact ⟨db', calls', new, hgo, hmem, hmono _ hlen⟩
      | arr x =>
        dsimp only
        obtain ⟨db', calls', new, hgo, hmem, hlen⟩ := ih db n acc calls
        exact ⟨db', calls', new, hgo, hmem, hmono _ hlen⟩
      | obj x =>
        dsimp only
        obtain ⟨db', calls', new, hgo, hmem, hlen⟩ := ih db n acc calls
        exact ⟨db', calls', new, hgo, hmem, hmono _ hlen⟩



/-- A `get` returning a string means the raw lookup found that string. -/
theorem rlook_of_pyGet_str {r : Row} {k : String} {s : String}
    (h : pyGet r k = .str s) : rlook r k = some (.str s) := by
  unfold pyGet at h
  cases hl : rlook r k with
  | none => rw [hl] at h; simp at h
  | some v => rw [hl] at h; simp at h; rw [h]

/-- If every row of a list has a string id, projecting to ids preserves the
length. -/
theorem filterMap_rowIdStr_length (l : List Row)
    (h : ∀ r ∈ l, (rowIdStr r).isSome = true) :
    (l.filterMap rowIdStr).length = l.length := by
  induction l with
  | nil => rfl
  | cons r rest ih =>
    rw [List.filterMap_cons]
    cases hr : rowIdStr r with
    | none =>
      have := h r (List.mem_cons_self r rest)
      rw [hr] at this
      simp at this
    | some s =>
      simp only [List.length_cons]
      rw [ih (fun q hq => h q (List.mem_cons_of_mem r hq))]

/-- A row that can be scored has a string id the oracle answers. -/
theorem scoreCanSucceed_spec {oracle : String → Option Row} {r : Row}
    (h : scoreCanSucceed oracle r = true) :
    ∃ s, rowIdStr r = some s ∧ (oracle s).isSome = true := by
  unfold scoreCanSucceed at h
  cases hr : rowIdStr r with
  | none => rw [hr] at h; simp at h
  | some s => rw [hr] at h; exact ⟨s, rfl, h⟩

/-- Claim C5: for a batch-score request over distinct lead ids (on a store
whose leads carry distinct string ids), if at least one requested id fails —
its lookup finds nothing or its scoring call fails — the endpoint still
answers 200 with a body whose `scored_count` equals the length of `results`,
is strictly below the number of requested ids, and whose results all belong
to items whose model call succeeded: the failing item never aborts the
batch. -/
theorem C5_batch_partial_failure (db : DB) (ids : List String)
    (oracle : String → Option Row) (hnd : ids.Nodup)
    (hwf : (db.leads.filterMap rowIdStr).Nodup)
    (id₀ : String) (hmem : id₀ ∈ ids)
    (hfail : singleByVal db.leads "id" (.str id₀) = none ∨ oracle id₀ = none) :
    ((batchScoreLeads db ids oracle).res).isOk = true
    ∧ ∀ body, (batchScoreLeads db ids oracle).res = .ok body →
        body.scored_count = body.results.length
        ∧ body.scored_count < ids.length
        ∧ ∀ b ∈ body.results, (oracle b.lead_id).isSome = true := by
  obtain ⟨db', calls', new, hgo, hmemO, hlen⟩ :=
    batchGo_spec oracle
      (db.leads.filter (fun r => ids.any (fun s => pyGet r "id" == JVal.str s))) db 0 [] 0
  have hcount : new.length < ids.length := by
    set snapshot := db.leads.filter (fun r => ids.any (fun s => pyGet r "id" == JVal.str s))
      with hsnap
    set good := snapshot.filter (scoreCanSucceed oracle) with hgood
    have hgoodsub : good.Sublist db.leads :=
      (List.filter_sublist _).trans (List.filter_sublist _)
    have hgoodids : ∀ r ∈ good, (rowIdStr r).isSome = true := by
      intro r hr
      obtain ⟨s, hs, _⟩ := scoreCanSucceed_spec (List.mem_filter.mp hr).2
      rw [hs]
      rfl
    have hL : (good.filterMap rowIdStr).length = good.length :=
      filterMap_rowIdStr_length good hgoodids
    have hLnd : (good.filterMap rowIdStr).Nodup :=
      hwf.sublist (hgoodsub.filterMap rowIdStr)
    have hLmem : ∀ s ∈ good.filterMap rowIdStr, s ∈ ids ∧ s ≠ id₀ := by
      intro s hs
      obtain ⟨r, hr, hrs⟩ := List.mem_filterMap.mp hs
      have hrsnap : r ∈ snapshot := (List.mem_filter.mp hr).1
      have hrcan : scoreCanSucceed oracle r = true := (List.mem_filter.mp hr).2
      obtain ⟨hrdb, hrpred⟩ := List.mem_filter.mp hrsnap
      obtain ⟨s', hs'mem, hs'eq⟩ := List.any_eq_true.mp hrpred
      have hstr : pyGet r "id" = .str s' := JVal.eq_str_of_beq hs'eq
      have hrl : rlook r "id" = some (.str s') := rlook_of_pyGet_str hstr
      have hss' : s = s' := by
        unfold rowIdStr at hrs
        rw [hrl] at hrs
        exact (Option.some_inj.mp hrs).symm
      subst hss'
      refine ⟨hs'mem, ?_⟩
      intro hcontra
      subst hcontra
      rcases hfail with hnone | horacle
      · have hfe : eqFilter db.leads "id" (.str s) = [] := by
          unfold singleByVal at hnone
          exact List.head?_eq_none_iff.mp hnone
        have := List.filter_eq_nil_iff.mp hfe r hrdb
        rw [show (pyGet r "id" == JVal.str s) = JVal.beq (pyGet r "id") (JVal.str s)
          from rfl, hstr, JVal.beq_refl] at this
        exact this rfl
      · obtain ⟨s₂, hs₂, hok⟩ := scoreCanSucceed_spec hrcan
        unfold rowIdStr at hs₂
        rw [hrl] at hs₂
        rw [Option.some_inj.mp hs₂] at horacle
        rw [horacle] at hok
        simp at hok
    have hsubF : (good.filterMap rowIdStr).toFinset ⊆ ids.toFinset.erase id₀ := by
      intro s hs
      rw [List.mem_toFinset] at hs
      obtain ⟨h1, h2⟩ := hLmem s hs
      rw [Finset.mem_erase]
      exact ⟨h2, List.mem_toFinset.mpr h1⟩
    have hcard : (good.filterMap rowIdStr).length ≤ ids.toFinset.card - 1 := by
      have := Finset.card_le_card hsubF
      rw [List.toFinset_card_of_nodup hLnd] at this
      rw [Finset.card_erase_of_mem (List.mem_toFinset.mpr hmem)] at this
      exact this
    have hidscard : ids.toFinset.card = ids.length := List.toFinset_card_of_nodup hnd
    have hpos : 0 < ids.length := List.length_pos.mpr (fun h => by subst h; simp at hmem)
    rw [hidscard] at hcard
    omega
  unfold batchScoreLeads
  simp only [hgo]
  refine ⟨rfl, ?_⟩
  intro body hbody
  simp only [Except.ok.injEq] at hbody
  subst hbody
  refine ⟨by simp, by simpa using hcount, ?_⟩
  intro b hb
  exact hmemO b (by simpa using hb)

/-- Witness for C5: two requested ids, one lead present, the other's lookup
failing: one item scored, 200-class response, `scored_count = 1 < 2`. -/
theorem C5_batch_partial_failure_witness :
    ((batchScoreLeads { leads := [[("id", JVal.str "L1")]] } ["L1", "L2"]
        (fun s => if s = "L1" then some [("score", JVal.num 7)] else none)).res).isOk = true
    ∧ ((1 : Nat) = (1 : Nat)
      ∧ 1 < (["L1", "L2"] : List String).length
      ∧ ∀ b ∈ [mkScoreBody "L1" [("score", JVal.num 7)]],
          ((fun s => if s = "L1" then some [("score", JVal.num 7)] else none) b.lead_id).isSome
            = true) := by
  have h := C5_batch_partial_failure { leads := [[("id", JVal.str "L1")]] } ["L1", "L2"]
    (fun s => if s = "L1" then some [("score", JVal.num 7)] else none)
    (by decide) (by decide) "L2" (by decide) (Or.inl (by rfl))
  refine ⟨h.1, ?_⟩
  have h2 := h.2 ⟨"Scored 1 of 2 leads", 1, [mkScoreBody "L1" [("score", JVal.num 7)]]⟩ (by rfl)
  exact ⟨rfl, h2.2.1, h2.2.2⟩

end Verdant
